import Mathlib

set_option maxRecDepth 8000

namespace Webify

/-!
Verification development for the WebiFy website generator
(`backend/builder/services.py` and `backend/builder/views.py`).

The Python source is shallowly embedded below.  External collaborators
(the Gemini text model, `cssbeautifier`/`jsbeautifier`, `BeautifulSoup`
processing, and the image crawler) are modelled as explicit function
parameters; every line of first-party control flow — caching, retries,
backoff, fence stripping, stub insertion, JSON validation and fallback,
the phase dispatch of `process_generation`, and the HTTP view layer —
is translated from the source.  Python strings are Lean `String`s,
`time.sleep` calls are logged as rationals, and the model call counter
records how many external generation requests were issued.

Modelling notes, fixed once here:
* JSON numbers are modelled as integers; the generator's prompts and the
  fallback structures only ever use string values, and no claim depends
  on float literals.
* `hash(prompt)` in the cache key is modelled by the prompt itself (the
  spec treats fingerprint collisions as out of scope).
* Braces inside string literals are written with the escapes `\x7b` and
  `\x7d`.
-/


/-! ### Characters and Python-style string helpers -/

def btick : Char := Char.ofNat 96

def obrace : Char := Char.ofNat 123

def cbrace : Char := Char.ofNat 125

def squote : Char := Char.ofNat 39

/-- Whitespace recognised by Python's `str.strip()` (ASCII part). -/
def pyWs (c : Char) : Bool :=
  c == ' ' || c == '\t' || c == '\n' || c == '\r' || c == Char.ofNat 11 || c == Char.ofNat 12

/-- Python `str.strip()`. -/
def pyStrip (s : String) : String :=
  String.mk (((s.data.dropWhile pyWs).reverse.dropWhile pyWs).reverse)

/-- List length with eight elements consumed per recursive step, so that
kernel evaluation on multi-thousand character strings stays within the
recursion depth the type checker tolerates.  `lenChunk_eq` shows it is
`List.length`. -/
def lenChunk : List Char → Nat → Nat
  | _ :: _ :: _ :: _ :: _ :: _ :: _ :: _ :: rest, n => lenChunk rest (n + 8)
  | cs, n => n + cs.length

/-- Python `len` on a string (kernel-friendly form of `String.length`). -/
def pyLen (s : String) : Nat := lenChunk s.data 0

/-- If `p` is a leading segment of `cs`, return the remainder. -/
def dropLead : List Char → List Char → Option (List Char)
  | [], cs => some cs
  | _ :: _, [] => none
  | p :: ps, c :: cs => if c = p then dropLead ps cs else none

/-- Python substring containment (`pat in s`) over char lists. -/
def hasSubL (pat : List Char) : List Char → Bool
  | [] => (dropLead pat []).isSome
  | c :: rest => (dropLead pat (c :: rest)).isSome || hasSubL pat rest

/-- Python substring containment `pat in s`. -/
def hasSub (s pat : String) : Bool := hasSubL pat.data s.data

/-! ### Code-fence stripping

`re.sub(r'<fence>(?:lang)?\n?|\n?<fence>', '', s)` scans left to right:
at each position it first tries a three-backtick fence followed by an
optional language tag and an optional newline, then a newline followed by
a fence.  The JS cleaner's language alternation `(?:js|javascript)?` tries
`js` first and `javascript` second; the embedding carries the ordered list
of language tags per cleaner. -/

/-- Consume the first language tag (in order) present at the head. -/
def eatLangs (langs : List (List Char)) (cs : List Char) : List Char :=
  match langs with
  | [] => cs
  | l :: ls =>
    match dropLead l cs with
    | some r => r
    | none => eatLangs ls cs

/-- Consume an optional newline at the head. -/
def eatNl (cs : List Char) : List Char :=
  match cs with
  | c :: r => if c = '\n' then r else cs
  | [] => []

/-- One scan step of the fence-removal regex: `some k` means a match
starts at `c` and scanning continues at `k`; `none` means no match. -/
def fenceStep (langs : List (List Char)) (c : Char) (rest : List Char) : Option (List Char) :=
  if c = btick then
    match dropLead [btick, btick] rest with
    | some a3 => some (eatNl (eatLangs langs a3))
    | none => none
  else if c = '\n' then
    match dropLead [btick, btick, btick] rest with
    | some a => some a
    | none => none
  else none

/-- The left-to-right, non-overlapping fence-removal scan, structurally
recursive on a fuel argument so that it kernel-reduces; by
`fenceStep_length` every continuation list is strictly shorter than the
scanned one, so fuel `cs.length` never runs out. -/
def subFenceF (langs : List (List Char)) : Nat → List Char → List Char
  | 0, cs => cs
  | _ + 1, [] => []
  | fuel + 1, c :: rest =>
    match fenceStep langs c rest with
    | some nxt => subFenceF langs fuel nxt
    | none => c :: subFenceF langs fuel rest

/-- The full fence removal. -/
def subFence (langs : List (List Char)) (cs : List Char) : List Char :=
  subFenceF langs (lenChunk cs 0) cs

/-- `re.sub` fence stripping on strings with the given language tags. -/
def stripFences (langs : List String) (s : String) : String :=
  String.mk (subFence (langs.map String.data) s.data)

/-! ### Asset cleaners (`_clean_css`, `_clean_js`, `_clean_html`)

The beautifier libraries and the BeautifulSoup document processing are
external; each is a function parameter, with `none` modelling a raised
exception inside the library call / the `try` block. -/

def darkMarker : String := "@media (prefers-color-scheme: dark)"

def darkStub : String :=
  "\n\n@media (prefers-color-scheme: dark) \x7b\n  :root \x7b\n    /* Dark mode variables */\n  \x7d\n\x7d"

def printMarker : String := "@media print"

def printStub : String := "\n\n@media print \x7b\n  /* Print styles */\n\x7d"

/-- The double-quoted strict-mode directive `"use strict";`. -/
def strictDq : String := "\"use strict\";"

/-- The single-quoted variant of the strict-mode directive. -/
def strictSq : String := String.singleton squote ++ "use strict" ++ String.singleton squote ++ ";"

/-- The prepended directive together with its two newlines. -/
def strictPre : String := "\"use strict\";\n\n"

/-- The fence-stripped form of the input that `_clean_css` computes before
calling the beautifier (`re.sub(..., css.strip())`). -/
def cssStripped (css : String) : String := stripFences ["css"] (pyStrip css)

/-- The fence-stripped form of the input inside `_clean_js`. -/
def jsStripped (js : String) : String := stripFences ["js", "javascript"] (pyStrip js)

/-- The fence-stripped form of the input inside `_clean_html`. -/
def htmlStripped (html : String) : String := stripFences ["html"] (pyStrip html)

/-- `WebsiteGenerator._clean_css`.  On a beautifier exception the
`except` branch returns the fence-stripped input. -/
def clean_css (beautify : String → Option String) (css : String) : String :=
  if css = "" then ""
  else
    match beautify (cssStripped css) with
    | none => cssStripped css
    | some b =>
      let b1 := if hasSub b darkMarker then b else b ++ darkStub
      if hasSub b1 printMarker then b1 else b1 ++ printStub

/-- `WebsiteGenerator._clean_js`.  On a beautifier exception the
`except` branch returns the fence-stripped input. -/
def clean_js (beautify : String → Option String) (js : String) : String :=
  if js = "" then ""
  else
    match beautify (jsStripped js) with
    | none => jsStripped js
    | some b => if hasSub b strictDq || hasSub b strictSq then b else strictPre ++ b

/-- The fixed document template of `_clean_html` (the f-string at the end
of its `try` block), parameterised by the page title and body content. -/
def htmlTemplate (title body : String) : String :=
  "<!DOCTYPE html>\n<html lang=\"en\">\n<head>\n    <meta charset=\"utf-8\">\n    <meta name=\"viewport\" content=\"width=device-width, initial-scale=1\">\n    <title>"
    ++ title ++
    "</title>\n    <script src=\"https://cdn.tailwindcss.com\"></script>\n    <link href=\"https://fonts.googleapis.com/css2?family=Inter:wght@400;500;600;700&display=swap\" rel=\"stylesheet\">\n</head>\n<body class=\"min-h-screen bg-white dark:bg-gray-900\">\n    <div class=\"flex flex-col min-h-screen\">\n        "
    ++ body ++
    "\n    </div>\n</body>\n</html>"

/-- `WebsiteGenerator._clean_html`.  `soupProc` models the BeautifulSoup
image/class processing of the `try` block, yielding the page title and the
body content interpolated into the template; `none` models an exception in
that block.  The `except` branch evaluates `self.logger`, an attribute the
class never sets, so instead of returning the fence-stripped input it
raises `AttributeError` — modelled by `Except.error`. -/
def clean_html (soupProc : String → Option (String × String)) (html : String) :
    Except String String :=
  if html = "" then Except.ok ""
  else
    match soupProc (htmlStripped html) with
    | some (title, body) => Except.ok (htmlTemplate title body)
    | none => Except.error "AttributeError: WebsiteGenerator object has no attribute logger"

/-! ### JSON values, `json.loads` and `json.dumps`

`json.loads` is the standard library; the embedding implements the JSON
grammar directly (objects keep insertion order, a repeated key keeps its
first position with the last value, exactly as a Python `dict` built by
the parser).  Numeric literals are modelled as integers and inputs using
floats, exponents or `\u` escapes are treated as unparseable; no prompt,
fallback value or claim in this development involves them. -/

inductive Json where
  | null : Json
  | bool : Bool → Json
  | num : Int → Json
  | str : String → Json
  | arr : List Json → Json
  | obj : List (String × Json) → Json

/-- JSON whitespace (`json.loads` skips exactly these). -/
def jsonWs (c : Char) : Bool := c == ' ' || c == '\t' || c == '\n' || c == '\r'

def skipWs (cs : List Char) : List Char := cs.dropWhile jsonWs

/-- Decoding of a JSON string escape character. -/
def escDecode (c : Char) : Option Char :=
  if c = '"' then some '"'
  else if c = '\\' then some '\\'
  else if c = '/' then some '/'
  else if c = 'n' then some '\n'
  else if c = 't' then some '\t'
  else if c = 'r' then some '\r'
  else if c = 'b' then some (Char.ofNat 8)
  else if c = 'f' then some (Char.ofNat 12)
  else none

/-- Parse the body of a JSON string after the opening quote. -/
def parseStrBody : List Char → Option (List Char × List Char)
  | [] => none
  | c :: rest =>
    if c = '"' then some ([], rest)
    else if c = '\\' then
      match rest with
      | e :: rest2 =>
        match escDecode e with
        | some ec => (parseStrBody rest2).map (fun p => (ec :: p.1, p.2))
        | none => none
      | [] => none
    else (parseStrBody rest).map (fun p => (c :: p.1, p.2))

/-- Parse an integer literal. -/
def parseNum (cs : List Char) : Option (Json × List Char) :=
  let (neg, cs1) :=
    match cs with
    | c :: r => if c = '-' then (true, r) else (false, cs)
    | [] => (false, cs)
  let digits := cs1.takeWhile Char.isDigit
  let rest := cs1.dropWhile Char.isDigit
  if digits.isEmpty then none
  else
    let bad :=
      match rest with
      | c :: _ => c = '.' || c = 'e' || c = 'E'
      | [] => false
    if bad then none
    else
      let v : Int := digits.foldl (fun a c => a * 10 + (Int.ofNat (c.toNat - 48))) 0
      some (Json.num (if neg then -v else v), rest)

/-- Python `dict` insertion: a repeated key keeps its original position
and takes the new value. -/
def insertUpd (acc : List (String × Json)) (k : String) (v : Json) : List (String × Json) :=
  if acc.any (fun kv => kv.1 == k) then
    acc.map (fun kv => if kv.1 == k then (k, v) else kv)
  else acc ++ [(k, v)]

mutual

/-- Parse one JSON value (fuel-indexed). -/
def parseVal : Nat → List Char → Option (Json × List Char)
  | 0, _ => none
  | Nat.succ fuel, cs =>
    match skipWs cs with
    | [] => none
    | c :: rest =>
      if c = '"' then (parseStrBody rest).map (fun p => (Json.str (String.mk p.1), p.2))
      else if c = 'n' then
        match dropLead ['u', 'l', 'l'] rest with
        | some r => some (Json.null, r)
        | none => none
      else if c = 't' then
        match dropLead ['r', 'u', 'e'] rest with
        | some r => some (Json.bool true, r)
        | none => none
      else if c = 'f' then
        match dropLead ['a', 'l', 's', 'e'] rest with
        | some r => some (Json.bool false, r)
        | none => none
      else if c = '[' then
        match skipWs rest with
        | ']' :: r => some (Json.arr [], r)
        | other => parseArrItems fuel other []
      else if c = obrace then
        match skipWs rest with
        | d :: r => if d = cbrace then some (Json.obj [], r) else parseObjItems fuel (d :: r) []
        | [] => none
      else parseNum (c :: rest)

/-- Parse the remaining items of a non-empty JSON array. -/
def parseArrItems : Nat → List Char → List Json → Option (Json × List Char)
  | 0, _, _ => none
  | Nat.succ fuel, cs, acc =>
    match parseVal fuel cs with
    | none => none
    | some (v, r) =>
      match skipWs r with
      | ',' :: r2 => parseArrItems fuel r2 (acc ++ [v])
      | ']' :: r2 => some (Json.arr (acc ++ [v]), r2)
      | _ => none

/-- Parse the remaining members of a non-empty JSON object. -/
def parseObjItems : Nat → List Char → List (String × Json) → Option (Json × List Char)
  | 0, _, _ => none
  | Nat.succ fuel, cs, acc =>
    match skipWs cs with
    | q :: r =>
      if q = '"' then
        match parseStrBody r with
        | none => none
        | some (kChars, r1) =>
          match skipWs r1 with
          | ':' :: r2 =>
            match parseVal fuel r2 with
            | none => none
            | some (v, r3) =>
              match skipWs r3 with
              | ',' :: r4 => parseObjItems fuel r4 (insertUpd acc (String.mk kChars) v)
              | d :: r4 =>
                if d = cbrace then some (Json.obj (insertUpd acc (String.mk kChars) v), r4)
                else none
              | [] => none
          | _ => none
      else none
    | [] => none

end

/-- `json.loads`: the whole input must be a single JSON value. -/
def jsonParse (s : String) : Option Json :=
  match parseVal (2 * s.length + 2) s.data with
  | some (j, rest) => if skipWs rest = [] then some j else none
  | none => none

/-- Escaping of one character in `json.dumps` output (the inputs used by
the generator contain no control or non-ASCII characters beyond these). -/
def escEncode (c : Char) : String :=
  if c = '"' then "\\\""
  else if c = '\\' then "\\\\"
  else if c = '\n' then "\\n"
  else if c = '\t' then "\\t"
  else if c = '\r' then "\\r"
  else String.singleton c

def dumpsStr (s : String) : String :=
  "\"" ++ String.join (s.data.map escEncode) ++ "\""

mutual

/-- `json.dumps` with the default separators `", "` and `": "`. -/
def jsonDumps : Json → String
  | Json.null => "null"
  | Json.bool true => "true"
  | Json.bool false => "false"
  | Json.num n => toString n
  | Json.str s => dumpsStr s
  | Json.arr xs => "[" ++ jsonDumpsList xs ++ "]"
  | Json.obj kvs => String.singleton obrace ++ jsonDumpsObj kvs ++ String.singleton cbrace

def jsonDumpsList : List Json → String
  | [] => ""
  | [x] => jsonDumps x
  | x :: y :: xs => jsonDumps x ++ ", " ++ jsonDumpsList (y :: xs)

def jsonDumpsObj : List (String × Json) → String
  | [] => ""
  | [kv] => dumpsStr kv.1 ++ ": " ++ jsonDumps kv.2
  | kv :: kv2 :: xs => dumpsStr kv.1 ++ ": " ++ jsonDumps kv.2 ++ ", " ++ jsonDumpsObj (kv2 :: xs)

end

/-- Key lookup in a parsed object. -/
def lookupKV (l : List (String × Json)) (k : String) : Option Json :=
  (l.find? (fun kv => kv.1 == k)).map (fun kv => kv.2)

/-- The greedy pattern `({[\s\S]*})` of `_validate_and_clean_json`: from
the first opening brace through the last closing brace after it. -/
def extractBraces (s : String) : Option String :=
  let cs := s.data.dropWhile (fun c => !(c == obrace))
  match cs with
  | [] => none
  | _ :: _ =>
    let r := cs.reverse.dropWhile (fun c => !(c == cbrace))
    if r.isEmpty then none else some (String.mk r.reverse)

/-! ### Data model: `WebsiteStructure` and `GenerationState`

Python dataclasses perform no type checking, so the five
`WebsiteStructure` fields hold whatever JSON values the parse produced;
the dataclass default factories appear as the `wsDefault*` values. -/

def wsDefaultComponents : Json := Json.arr []

def wsDefaultColors : Json := Json.obj
  [("primary", Json.str "blue-600"), ("secondary", Json.str "gray-600"),
   ("accent", Json.str "emerald-500"), ("background", Json.str "white"),
   ("text", Json.str "gray-900")]

def wsDefaultTypography : Json := Json.obj
  [("fonts", Json.arr [Json.str "inter", Json.str "system-ui", Json.str "sans-serif"]),
   ("sizes", Json.obj
     [("base", Json.str "text-base"), ("h1", Json.str "text-4xl"),
      ("h2", Json.str "text-3xl"), ("h3", Json.str "text-2xl"),
      ("small", Json.str "text-sm")]),
   ("weights", Json.obj
     [("normal", Json.str "font-normal"), ("medium", Json.str "font-medium"),
      ("bold", Json.str "font-bold")])]

def wsDefaultSpacing : Json := Json.obj
  [("base", Json.str "4"), ("small", Json.str "2"), ("large", Json.str "8"),
   ("section", Json.str "16")]

def wsDefaultBreakpoints : Json := Json.obj
  [("mobile", Json.str "sm"), ("tablet", Json.str "md"), ("desktop", Json.str "lg"),
   ("wide", Json.str "xl")]

structure WebsiteStructure where
  components : Json := wsDefaultComponents
  colors : Json := wsDefaultColors
  typography : Json := wsDefaultTypography
  spacing : Json := wsDefaultSpacing
  breakpoints : Json := wsDefaultBreakpoints

def requiredKeys : List String :=
  ["components", "colors", "typography", "spacing", "breakpoints"]

/-- `WebsiteStructure(**kvs)`: any unexpected keyword raises `TypeError`;
absent keys take the dataclass defaults. -/
def mkWebsiteStructure (kvs : List (String × Json)) : Except String WebsiteStructure :=
  if kvs.all (fun kv => requiredKeys.contains kv.1) then
    Except.ok
      { components := (lookupKV kvs "components").getD wsDefaultComponents
        colors := (lookupKV kvs "colors").getD wsDefaultColors
        typography := (lookupKV kvs "typography").getD wsDefaultTypography
        spacing := (lookupKV kvs "spacing").getD wsDefaultSpacing
        breakpoints := (lookupKV kvs "breakpoints").getD wsDefaultBreakpoints }
  else Except.error "TypeError: unexpected keyword argument"

/-- `GenerationState` (field `structure` is a Lean keyword and is named
`struct` here).  Timestamps are rationals; the per-call flow never sets
them. -/
structure GenState where
  struct : Option WebsiteStructure := none
  html : String := ""
  css : String := ""
  js : String := ""
  components : List Json := []
  errors : List String := []
  warnings : List String := []
  progress : Int := 0
  completed : Bool := false
  generation_start : Option ℚ := none
  generation_end : Option ℚ := none

/-! ### `_validate_and_clean_json` -/

/-- Python's `key in data` for a parsed JSON value: key membership for a
dict, element equality for a list, substring test for a string, and a
`TypeError` for non-iterable values. -/
def pyIn (key : String) : Json → Except String Bool
  | Json.obj kvs => Except.ok (kvs.any (fun kv => kv.1 == key))
  | Json.arr xs =>
    Except.ok (xs.any (fun x => match x with | Json.str s => s == key | _ => false))
  | Json.str s => Except.ok (hasSub s key)
  | _ => Except.error "TypeError: argument is not iterable"

/-- `[key for key in keys if key not in data]`, propagating a `TypeError`
from the membership test. -/
def missingKeys : List String → Json → Except String (List String)
  | [], _ => Except.ok []
  | k :: ks, j =>
    match pyIn k j with
    | Except.error e => Except.error e
    | Except.ok b =>
      match missingKeys ks j with
      | Except.error e => Except.error e
      | Except.ok rest => Except.ok (if b then rest else k :: rest)

/-- The hard-coded fallback returned when both parse attempts fail
(lines 373–409 of `services.py`). -/
def defaultStructureJson : Json := Json.obj
  [("components", Json.arr [Json.str "header", Json.str "main", Json.str "footer"]),
   ("colors", Json.obj
     [("primary", Json.str "#007bff"), ("secondary", Json.str "#6c757d"),
      ("accent", Json.str "#28a745"), ("background", Json.str "#ffffff"),
      ("text", Json.str "#212529")]),
   ("typography", Json.obj
     [("fonts", Json.arr [Json.str "system-ui", Json.str "sans-serif"]),
      ("sizes", Json.obj
        [("base", Json.str "16px"), ("h1", Json.str "2.5rem"),
         ("h2", Json.str "2rem"), ("h3", Json.str "1.75rem"),
         ("small", Json.str "0.875rem")]),
      ("weights", Json.obj
        [("normal", Json.str "400"), ("medium", Json.str "500"),
         ("bold", Json.str "700")])]),
   ("spacing", Json.obj
     [("base", Json.str "1rem"), ("small", Json.str "0.5rem"),
      ("large", Json.str "2rem"), ("section", Json.str "4rem")]),
   ("breakpoints", Json.obj
     [("mobile", Json.str "576px"), ("tablet", Json.str "768px"),
      ("desktop", Json.str "1024px"), ("wide", Json.str "1200px")])]

/-- `WebsiteGenerator._validate_and_clean_json`.  A successful strict
parse that misses required keys raises `ValueError` — the handler catches
only `json.JSONDecodeError`, so that `ValueError` (and any `TypeError`
from the membership test) propagates to the caller, modelled by
`Except.error`.  Only a strict parse failure reaches the embedded-block
attempt, whose successful parse is returned without the key check, and
the default is returned when both attempts fail. -/
def validate_and_clean_json (content : String) : Except String Json :=
  match jsonParse content with
  | some data =>
    match missingKeys requiredKeys data with
    | Except.error e => Except.error e
    | Except.ok missing =>
      if missing.isEmpty then Except.ok data
      else Except.error ("Missing required keys: " ++ String.intercalate ", " missing)
  | none =>
    match extractBraces content with
    | some sub =>
      match jsonParse sub with
      | some data => Except.ok data
      | none => Except.ok defaultStructureJson
    | none => Except.ok defaultStructureJson

/-! ### External world: the model oracle, the Django cache, sleeps

`oracle n` is the outcome of the `n`-th call to
`model.generate_content` (`none` models an exception or a response
without a `text` attribute); `calls` counts the calls made so far.
`cacheMap` is the Django response cache (`website_gen_*` keys only; the
`website_state_*` session store of the views layer is kept separately).
`delays` logs every `time.sleep`, in seconds, as exact rationals. -/

structure World where
  oracle : Nat → Option String
  calls : Nat := 0
  cacheMap : List (String × String) := []
  delays : List ℚ := []

def cacheGet (w : World) (k : String) : Option String :=
  (w.cacheMap.find? (fun kv => kv.1 == k)).map (fun kv => kv.2)

def cacheSet (w : World) (k v : String) : World :=
  { w with cacheMap := (k, v) :: w.cacheMap }

/-- `f"website_gen_{hash(prompt)}"`, with the hash fingerprint modelled
by the prompt itself. -/
def cacheKey (prompt : String) : String := "website_gen_" ++ prompt

/-- `MIN_CONTENT_LENGTH`. -/
def minContentLength : Nat := 100

/-- `MAX_RETRIES`. -/
def maxRetries : Nat := 3

/-- The retry loop body of `_generate_with_retry`: `remaining` counts the
attempts still available, so the running attempt index is
`retries - remaining`.  A successful attempt returns the stripped text
when it reaches the minimum length; a failed non-final attempt sleeps
`backoff_factor ** attempt * 1` seconds with `backoff_factor = 1.5`. -/
def genRetryGo (retries : Nat) : World → String → Nat → Except String String × World
  | w, lastErr, 0 =>
    (Except.error ("Generation failed after " ++ toString retries ++
      " attempts. Last error: " ++ lastErr), w)
  | w, _, Nat.succ n =>
    let attempt := retries - Nat.succ n
    let w1 : World := { w with calls := w.calls + 1 }
    match w.oracle w.calls with
    | some t =>
      let content := pyStrip t
      if content.length < minContentLength then
        let e := "Generated content too short: " ++ toString content.length ++ " chars"
        if n = 0 then genRetryGo retries w1 e n
        else genRetryGo retries
          { w1 with delays := w1.delays ++ [((3 : ℚ) / 2) ^ attempt * 1] } e n
      else (Except.ok content, w1)
    | none =>
      let e := "Invalid response structure"
      if n = 0 then genRetryGo retries w1 e n
      else genRetryGo retries
        { w1 with delays := w1.delays ++ [((3 : ℚ) / 2) ^ attempt * 1] } e n

/-- `WebsiteGenerator._generate_with_retry` (the oracle stands for
`self.model.generate_content(prompt)`, hence the prompt itself does not
influence the modelled outcome). -/
def generate_with_retry (w : World) (_prompt : String) (retries : Nat := maxRetries) :
    Except String String × World :=
  genRetryGo retries w "None" retries

/-- `[prompt[i:i + 4000] for i in range(0, len(prompt), 4000)]`. -/
def chunksOf4000 : List Char → List (List Char)
  | [] => []
  | c :: rest => (c :: rest).take 4000 :: chunksOf4000 ((c :: rest).drop 4000)
  termination_by cs => cs.length
  decreasing_by
    simp only [List.length_drop, List.length_cons]
    omega

/-- The chunk loop of `_generate_content`: each chunk runs its own retry
loop and the pieces are concatenated; the first failure propagates. -/
def genChunks (w : World) : List (List Char) → Except String String × World
  | [] => (Except.ok "", w)
  | ch :: rest =>
    match generate_with_retry w (String.mk ch) maxRetries with
    | (Except.ok c, w1) =>
      match genChunks w1 rest with
      | (Except.ok cr, w2) => (Except.ok (c ++ cr), w2)
      | (Except.error e, w2) => (Except.error e, w2)
    | (Except.error e, w1) => (Except.error e, w1)

/-- The `try` block of `_generate_content` on a cache miss.  The
`time.sleep(0.5)` sits after the chunk loop (at the loop's indentation
level), so it runs once when every chunk succeeded.  The final length
check guards the cache write; the `except` branch appends
`"Content generation failed: ..."` to `errors` and re-raises the original
exception. -/
def generate_content_fresh (w : World) (st : GenState) (prompt : String) :
    Except String String × GenState × World :=
  let run : Except String String × World :=
    if 4000 < pyLen prompt then
      match genChunks w (chunksOf4000 prompt.data) with
      | (Except.ok c, w1) => (Except.ok c, { w1 with delays := w1.delays ++ [(1 : ℚ) / 2] })
      | (Except.error e, w1) => (Except.error e, w1)
    else generate_with_retry w prompt maxRetries
  match run with
  | (Except.ok content, w1) =>
    if content.length < minContentLength then
      let e := "Generated content too short: " ++ toString content.length ++ " chars"
      (Except.error e, { st with errors := st.errors ++ ["Content generation failed: " ++ e] }, w1)
    else (Except.ok content, st, cacheSet w1 (cacheKey prompt) content)
  | (Except.error e, w1) =>
    (Except.error e, { st with errors := st.errors ++ ["Content generation failed: " ++ e] }, w1)

/-- `WebsiteGenerator._generate_content`.  The empty-prompt `ValueError`
is raised before the `try`, so nothing is appended to `errors` for it; a
cached empty string is falsy and treated as a miss. -/
def generate_content (w : World) (st : GenState) (prompt : String) :
    Except String String × GenState × World :=
  if prompt = "" then (Except.error "Empty prompt provided", st, w)
  else
    match cacheGet w (cacheKey prompt) with
    | some v => if v = "" then generate_content_fresh w st prompt else (Except.ok v, st, w)
    | none => generate_content_fresh w st prompt

/-- The part of the `structure` prompt template before the description
(`self.prompts['structure']`, the second `_initialize_prompts` wins). -/
def structurePromptPre : String :=
  "Analyze this website description and return a valid JSON structure.\n            Description: "

/-- The part of the `structure` prompt template after the description. -/
def structurePromptPost : String :=
  "\n            \n            IMPORTANT: Create a cohesive, modern website structure following these guidelines:\n"
    ++ "            1. Color System:\n                - Primary: Bold, memorable brand color (#...)\n                - Secondary: Complementary shade (#...)\n"
    ++ "                - Accent: Attention-grabbing highlights (#...)\n                - Background: Light/dark variants (#...)\n                - Text: Multiple contrast levels (#...)\n"
    ++ "                All colors must be WCAG 2.1 AA compliant.\n            \n            2. Typography:\n"
    ++ "                - Heading Font: Modern, distinctive\n                - Body Font: Highly readable\n                - Font Sizes: Responsive scales\n"
    ++ "                - Line Heights: Optimal readability\n                - Weights: Clear hierarchy\n            \n"
    ++ "            3. Spacing:\n                - Base: Consistent rhythm (1rem)\n                - Small: Tight spacing (0.5rem)\n"
    ++ "                - Large: Section breaks (2rem)\n                - Component: Internal spacing (1.5rem)\n            \n"
    ++ "            Return this exact JSON structure:\n            \x7b\n                \"components\": [\"header\", \"nav\", \"hero\", \"features\", \"content\", \"cta\", \"footer\"],\n"
    ++ "                \"colors\": \x7b\n                    \"primary\": \"#hex\",\n                    \"secondary\": \"#hex\",\n"
    ++ "                    \"accent\": \"#hex\",\n                    \"background\": \x7b\n                        \"light\": \"#hex\",\n"
    ++ "                        \"dark\": \"#hex\"\n                    \x7d,\n                    \"text\": \x7b\n"
    ++ "                        \"primary\": \"#hex\",\n                        \"secondary\": \"#hex\"\n                    \x7d\n"
    ++ "                \x7d,\n                \"typography\": \x7b\n                    \"fonts\": \x7b\n"
    ++ "                        \"heading\": \"font-family\",\n                        \"body\": \"font-family\"\n                    \x7d,\n"
    ++ "                    \"sizes\": \x7b\n                        \"base\": \x7b\"size\": \"1rem\", \"lineHeight\": \"1.5\"\x7d,\n                        \"h1\": \x7b\"size\": \"2.5rem\", \"lineHeight\": \"1.2\"\x7d,\n"
    ++ "                        \"h2\": \x7b\"size\": \"2rem\", \"lineHeight\": \"1.3\"\x7d,\n                        \"h3\": \x7b\"size\": \"1.75rem\", \"lineHeight\": \"1.4\"\x7d,\n                        \"small\": \x7b\"size\": \"0.875rem\", \"lineHeight\": \"1.4\"\x7d\n"
    ++ "                    \x7d,\n                    \"weights\": \x7b\n                        \"normal\": \"400\",\n"
    ++ "                        \"medium\": \"500\",\n                        \"bold\": \"700\"\n                    \x7d\n"
    ++ "                \x7d,\n                \"spacing\": \x7b\n                    \"base\": \"1rem\",\n"
    ++ "                    \"small\": \"0.5rem\",\n                    \"large\": \"2rem\",\n                    \"section\": \"4rem\",\n"
    ++ "                    \"component\": \"1.5rem\"\n                \x7d,\n                \"breakpoints\": \x7b\n"
    ++ "                    \"mobile\": \"640px\",\n                    \"tablet\": \"768px\",\n                    \"desktop\": \"1024px\",\n"
    ++ "                    \"wide\": \"1280px\"\n                \x7d\n            \x7d"

def structurePrompt (description : String) : String :=
  structurePromptPre ++ description ++ structurePromptPost

/-- The inline `html_prompt` f-string of `generate_html`; `components` is
the `json.dumps` of the structure's component list. -/
def htmlPrompt (description components : String) : String :=
  "Create a modern website using Tailwind CSS for: " ++ description
    ++ "\n                Components: " ++ components
    ++ "\n                Requirements:"
    ++ "\n                - Use descriptive alt text for images that clearly describes the content"
    ++ "\n                - Include relevant images for: company logo, hero section, team profiles, product showcases"
    ++ "\n                - Ensure alt text is meaningful and helps with image search context"
    ++ "\n                Other requirements remain the same as before..."
    ++ "\n                "

/-- The inline `css_prompt` f-string of `generate_css` (it interpolates
nothing, so it is one fixed string). -/
def cssPrompt : String :=
  "Create custom CSS to enhance Tailwind styling (only for custom components not covered by Tailwind):"
    ++ "\n                Requirements:"
    ++ "\n                - Minimize custom CSS, prefer Tailwind utilities"
    ++ "\n                - Only add styles for custom animations"
    ++ "\n                - Add styles for custom gradients if needed"
    ++ "\n                - Include custom scroll behavior"
    ++ "\n                - Add any necessary keyframe animations"
    ++ "\n                "

/-- The inline `js_prompt` f-string of `generate_js`. -/
def jsPrompt : String :=
  "Create JavaScript to enhance website functionality:"
    ++ "\n                Requirements:"
    ++ "\n                - Implement smooth scroll behavior"
    ++ "\n                - Add intersection observer for animations"
    ++ "\n                - Implement dark mode toggle"
    ++ "\n                - Add mobile menu functionality"
    ++ "\n                - Implement form validation"
    ++ "\n                - Add lazy loading for images"
    ++ "\n                - Implement scroll-to-top functionality"
    ++ "\n                - Add custom animations on scroll"
    ++ "\n                "

/-- The literal prepended to the generated JS before cleaning. -/
def jsContentPre : String := "// Website enhancement functions..."

/-! ### The generation phases

`Ext` bundles the remaining external collaborators of
`WebsiteGenerator`; each `Option`-valued entry uses `none` to model a
raised exception inside the library call. -/

structure Ext where
  soupProc : String → Option (String × String)
  extractComps : String → List Json
  foundTags : String → Option (List String)
  cssBeautify : String → Option String
  jsBeautify : String → Option String

/-- The dict a phase returns (`process_generation` ignores it; only
`status` and `message` are observable). -/
structure PhaseResult where
  status : String
  message : String := ""

/-- `WebsiteGenerator.analyze_structure`.  The `try` block covers content
generation, both validation passes and the `WebsiteStructure(**structure)`
construction; every exception lands in the handler that appends
`"Structure analysis failed: ..."`. -/
def analyze_structure (w : World) (st : GenState) (description : String) :
    PhaseResult × GenState × World :=
  if description = "" then
    ({ status := "error", message := "No description provided" },
     { st with errors := st.errors ++ ["No description provided"] }, w)
  else
    match generate_content w st (structurePrompt description) with
    | (Except.error e, st1, w1) =>
      ({ status := "error", message := "Structure analysis failed: " ++ e },
       { st1 with errors := st1.errors ++ ["Structure analysis failed: " ++ e] }, w1)
    | (Except.ok content, st1, w1) =>
      match validate_and_clean_json content with
      | Except.error e =>
        ({ status := "error", message := "Structure analysis failed: " ++ e },
         { st1 with errors := st1.errors ++ ["Structure analysis failed: " ++ e] }, w1)
      | Except.ok data =>
        match missingKeys requiredKeys data with
        | Except.error e =>
          ({ status := "error", message := "Structure analysis failed: " ++ e },
           { st1 with errors := st1.errors ++ ["Structure analysis failed: " ++ e] }, w1)
        | Except.ok missing =>
          if missing.isEmpty then
            match data with
            | Json.obj kvs =>
              match mkWebsiteStructure kvs with
              | Except.ok ws =>
                ({ status := "success" },
                 { st1 with struct := some ws, progress := 25 }, w1)
              | Except.error e =>
                ({ status := "error", message := "Structure analysis failed: " ++ e },
                 { st1 with errors := st1.errors ++ ["Structure analysis failed: " ++ e] }, w1)
            | _ =>
              ({ status := "error",
                 message := "Structure analysis failed: TypeError: argument is not a mapping" },
               { st1 with errors :=
                   st1.errors ++ ["Structure analysis failed: TypeError: argument is not a mapping"] }, w1)
          else
            ({ status := "error",
               message := "Structure analysis failed: Missing required fields: " ++
                 String.intercalate ", " missing },
             { st1 with errors := st1.errors ++
                 ["Structure analysis failed: Missing required fields: " ++
                   String.intercalate ", " missing] }, w1)

/-- The component names of the stored structure, as iterated by
`set(self.current_state.structure.components)` (non-string entries do not
match any tag name and are dropped here). -/
def componentNames : Option WebsiteStructure → List String
  | some ws =>
    match ws.components with
    | Json.arr xs => xs.filterMap (fun j => match j with | Json.str s => some s | _ => none)
    | _ => []
  | none => []

/-- `WebsiteGenerator._validate_and_enhance_structure`: it reads
`self.current_state.html`, which `generate_html` has not assigned yet at
its call site, so on the first HTML generation it returns immediately.
Its own `try/except` converts any exception into a warning. -/
def validateEnhance (ext : Ext) (st : GenState) : List String :=
  if st.html = "" then []
  else
    match ext.foundTags st.html with
    | some tags =>
      let missing := (componentNames st.struct).filter (fun c => !(tags.contains c))
      if missing.isEmpty then []
      else ["Missing components: " ++ String.intercalate ", " missing]
    | none => ["Structure validation failed: exception in BeautifulSoup"]

/-- `WebsiteGenerator.generate_html`.  A failure inside `_clean_html`
(including the `AttributeError` its broken `except` branch raises) is
caught here and appended as `"HTML generation failed: ..."`. -/
def generate_html (ext : Ext) (w : World) (st : GenState) (description : String) :
    PhaseResult × GenState × World :=
  if description = "" then
    ({ status := "error", message := "No description provided" },
     { st with errors := st.errors ++ ["No description provided"] }, w)
  else
    let components := jsonDumps (match st.struct with | some ws => ws.components | none => Json.arr [])
    match generate_content w st (htmlPrompt description components) with
    | (Except.error e, st1, w1) =>
      ({ status := "error", message := "HTML generation failed: " ++ e },
       { st1 with errors := st1.errors ++ ["HTML generation failed: " ++ e] }, w1)
    | (Except.ok content, st1, w1) =>
      match clean_html ext.soupProc content with
      | Except.error e =>
        ({ status := "error", message := "HTML generation failed: " ++ e },
         { st1 with errors := st1.errors ++ ["HTML generation failed: " ++ e] }, w1)
      | Except.ok cleaned =>
        let st2 := { st1 with warnings := st1.warnings ++ validateEnhance ext st1 }
        ({ status := "success" },
         { st2 with components := ext.extractComps cleaned, html := cleaned, progress := 50 }, w1)

/-- `WebsiteGenerator.generate_css`.  The guard appends
`"HTML must be generated before CSS"` and returns without touching the
world — no generator call is made. -/
def generate_css (ext : Ext) (w : World) (st : GenState) (_description : String) :
    PhaseResult × GenState × World :=
  if st.html = "" then
    ({ status := "error", message := "HTML generation required first" },
     { st with errors := st.errors ++ ["HTML must be generated before CSS"] }, w)
  else
    match generate_content w st cssPrompt with
    | (Except.error e, st1, w1) =>
      ({ status := "error", message := "CSS generation failed: " ++ e },
       { st1 with errors := st1.errors ++ ["CSS generation failed: " ++ e] }, w1)
    | (Except.ok content, st1, w1) =>
      ({ status := "success" },
       { st1 with css := clean_css ext.cssBeautify content, progress := 75 }, w1)

/-- `WebsiteGenerator.generate_js`. -/
def generate_js (ext : Ext) (w : World) (st : GenState) (_description : String) :
    PhaseResult × GenState × World :=
  if st.html = "" then
    ({ status := "error", message := "HTML generation required first" },
     { st with errors := st.errors ++ ["HTML must be generated before JavaScript"] }, w)
  else
    match generate_content w st jsPrompt with
    | (Except.error e, st1, w1) =>
      ({ status := "error", message := "JavaScript generation failed: " ++ e },
       { st1 with errors := st1.errors ++ ["JavaScript generation failed: " ++ e] }, w1)
    | (Except.ok content, st1, w1) =>
      ({ status := "success" },
       { st1 with js := clean_js ext.jsBeautify (jsContentPre ++ content), progress := 100 }, w1)

/-- The four pipeline phases. -/
inductive Phase where
  | structureP : Phase
  | htmlP : Phase
  | cssP : Phase
  | jsP : Phase

def runPhase (ext : Ext) (w : World) (st : GenState) (description : String) :
    Phase → PhaseResult × GenState × World
  | Phase.structureP => analyze_structure w st description
  | Phase.htmlP => generate_html ext w st description
  | Phase.cssP => generate_css ext w st description
  | Phase.jsP => generate_js ext w st description

/-! ### `process_generation` (one `advance` call) -/

/-- The response dict of `process_generation`.  In the source,
`response["errors"]`/`response["warnings"]` alias the state's mutable
lists, so they carry the final values; `response["progress"]` is the
`int` snapshot taken before the phase runs and is never updated.  The
emoji prefixes of the user-facing strings are elided. -/
structure AdvanceResponse where
  thought : String
  moves : List String
  response : String
  completed : Bool
  errors : List String
  warnings : List String
  progress : Int
  current_state : GenState

/-- Assemble the response dict, appending the warning-count note. -/
def mkAdvResp (thought : String) (moves : List String) (text : String)
    (compl : Bool) (preProgress : Int) (st1 : GenState) : AdvanceResponse :=
  { thought := thought
    moves := moves
    response :=
      if st1.warnings.isEmpty then text
      else text ++ "\nNote: " ++ toString st1.warnings.length ++ " warning(s) generated."
    completed := compl
    errors := st1.errors
    warnings := st1.warnings
    progress := preProgress
    current_state := st1 }

/-- `process_generation(prompt, current_state)`.  `stored = none` models
an empty or missing persisted dict (a fresh `GenerationState()`); the
`asdict`/`GenerationState(**d)` round trip is the identity.  The phase
result value is discarded exactly as in the source, and the terminal
branch marks the response — but not the state — completed. -/
def process_generation (ext : Ext) (w : World) (prompt : String)
    (stored : Option GenState) : AdvanceResponse × World :=
  let st0 := stored.getD {}
  if st0.struct.isNone then
    let r := analyze_structure w st0 prompt
    (mkAdvResp "Starting structure analysis and component planning" ["analyze_structure"]
      "Analyzing website structure and planning components..." false st0.progress r.2.1, r.2.2)
  else if st0.html = "" then
    let r := generate_html ext w st0 prompt
    (mkAdvResp "Generating semantic HTML structure with accessibility features" ["generate_html"]
      "Creating accessible HTML markup with semantic structure..." false st0.progress r.2.1, r.2.2)
  else if st0.css = "" then
    let r := generate_css ext w st0 prompt
    (mkAdvResp "Implementing responsive styles and modern CSS features" ["generate_css"]
      "Implementing responsive CSS with modern features..." false st0.progress r.2.1, r.2.2)
  else if st0.js = "" then
    let r := generate_js ext w st0 prompt
    (mkAdvResp "Adding interactive features and performance optimizations" ["generate_js"]
      "Adding JavaScript functionality and optimizations..." false st0.progress r.2.1, r.2.2)
  else
    (mkAdvResp "Website generation completed successfully" ["final_output"]
      "Website generation completed with all features implemented!" true st0.progress st0, w)

/-! ### The HTTP view `process_prompt` -/

/-- The JSON payload a view returns; `none` fields are absent keys. -/
structure Payload where
  status : String
  error : Option String := none
  thought : Option String := none
  responseText : Option String := none
  progress : Option Int := none
  completed : Option Bool := none
  html : Option String := none
  css : Option String := none
  js : Option String := none
  structureOut : Option WebsiteStructure := none
  errors : Option (List String) := none
  warnings : Option (List String) := none
  generation_time : Option ℚ := none

/-- `views.process_prompt`: status code, payload, stored session state
after the call, and the world.  An empty prompt is rejected with 400
before anything runs; otherwise the result of `process_generation` is
persisted and wrapped in a `status: "success"` payload whose optional
keys follow the truthiness checks of the source. -/
def process_prompt (ext : Ext) (w : World) (stored : Option GenState)
    (prompt : String) (reset : Bool) : Nat × Payload × Option GenState × World :=
  if prompt = "" then
    (400, { status := "error", error := some "No prompt provided" }, stored, w)
  else
    let current := if reset then none else stored
    let res := process_generation ext w prompt current
    let result := res.1
    let cs := result.current_state
    (200,
     { status := "success"
       thought := some result.thought
       responseText := some result.response
       progress := some cs.progress
       completed := some result.completed
       html := if cs.html = "" then none else some cs.html
       css := if cs.css = "" then none else some cs.css
       js := if cs.js = "" then none else some cs.js
       structureOut := cs.struct
       errors := if result.errors.isEmpty then none else some result.errors
       warnings := if result.warnings.isEmpty then none else some result.warnings
       generation_time :=
         match cs.generation_start, cs.generation_end with
         | some a, some b => some (b - a)
         | _, _ => none },
     some cs, res.2)

/-- Every cached response meets the minimum content length. -/
def CacheInv (w : World) : Prop :=
  ∀ k v, cacheGet w k = some v → minContentLength ≤ v.length

/-! ### Concrete fixtures for witnesses and counterexamples -/

/-- An identity beautifier: already-formatted text comes back unchanged. -/
def idBeautify : String → Option String := fun s => some s

/-- External collaborators that always succeed: the soup processing keeps
the body and titles the page `T`, extraction finds nothing, and the
beautifiers are the identity. -/
def extOk : Ext :=
  { soupProc := fun s => some ("T", s)
    extractComps := fun _ => []
    foundTags := fun _ => some []
    cssBeautify := idBeautify
    jsBeautify := idBeautify }

/-- A well-formed structure response: all five required keys, 146
characters. -/
def okStructJson : String :=
  "\x7b\"components\": [\"header\", \"main\", \"footer\"], \"colors\": \x7b\x7d, \"typography\": \x7b\x7d, \"spacing\": \x7b\x7d, \"breakpoints\": \x7b\"mobile\": \"576px\", \"tablet\": \"768px\"\x7d\x7d"

/-- A model that always answers with the well-formed structure JSON. -/
def wOk : World := { oracle := fun _ => some okStructJson }

/-- A model whose every call raises. -/
def wFail : World := { oracle := fun _ => none }

/-! ### C4 — structure-analysis fallback behaviour -/

/-- A parseable structure response (119 characters) that is missing the
required `breakpoints` key. -/
def missingKeyJson : String :=
  "\x7b\"components\": [], \"colors\": \x7b\x7d, \"typography\": \x7b\x7d, \"spacing\": \x7b\x7d, \"filler\": \"aaaaaaaaaaaaaaaaaaaaaaaaaaaaaaaaaaaaaaaa\"\x7d"

/-- A model that always answers with the missing-key JSON. -/
def wMissingKey : World := { oracle := fun _ => some missingKeyJson }

/-- A long enough model answer that is not JSON and contains no braces. -/
def notJsonText : String :=
  "here is a verbose description of the website structure without any machine readable data in it at all, alas"

/-- A model that always answers with the non-JSON text. -/
def wNotJson : World := { oracle := fun _ => some notJsonText }

/-- The `WebsiteStructure` built from the documented fallback value. -/
def defaultWebsiteStructure : WebsiteStructure :=
  { components := Json.arr [Json.str "header", Json.str "main", Json.str "footer"]
    colors := Json.obj
      [("primary", Json.str "#007bff"), ("secondary", Json.str "#6c757d"),
       ("accent", Json.str "#28a745"), ("background", Json.str "#ffffff"),
       ("text", Json.str "#212529")]
    typography := Json.obj
      [("fonts", Json.arr [Json.str "system-ui", Json.str "sans-serif"]),
       ("sizes", Json.obj
         [("base", Json.str "16px"), ("h1", Json.str "2.5rem"),
          ("h2", Json.str "2rem"), ("h3", Json.str "1.75rem"),
          ("small", Json.str "0.875rem")]),
       ("weights", Json.obj
         [("normal", Json.str "400"), ("medium", Json.str "500"),
          ("bold", Json.str "700")])]
    spacing := Json.obj
      [("base", Json.str "1rem"), ("small", Json.str "0.5rem"),
       ("large", Json.str "2rem"), ("section", Json.str "4rem")]
    breakpoints := Json.obj
      [("mobile", Json.str "576px"), ("tablet", Json.str "768px"),
       ("desktop", Json.str "1024px"), ("wide", Json.str "1200px")] }

/-! ### C2 — the four-call stateful walk -/

/-- First `advance` call of the scenario (fresh state, well-behaved
model). -/
def adv1 : AdvanceResponse × World :=
  process_generation extOk wOk "a bakery landing page" none

/-- Second `advance` call, resuming from the persisted state. -/
def adv2 : AdvanceResponse × World :=
  process_generation extOk adv1.2 "a bakery landing page" (some adv1.1.current_state)

/-- Third `advance` call. -/
def adv3 : AdvanceResponse × World :=
  process_generation extOk adv2.2 "a bakery landing page" (some adv2.1.current_state)

/-- Fourth `advance` call. -/
def adv4 : AdvanceResponse × World :=
  process_generation extOk adv3.2 "a bakery landing page" (some adv3.1.current_state)

/-- Fifth `advance` call, on the fully generated state. -/
def adv5 : AdvanceResponse × World :=
  process_generation extOk adv4.2 "a bakery landing page" (some adv4.1.current_state)

/-! ### Properties -/

theorem lenChunk_le_aux (k : Nat) :
    ∀ cs : List Char, cs.length ≤ k → ∀ n, lenChunk cs n = cs.length + n := by
  induction k with
  | zero =>
    intro cs h n
    rcases cs with _ | ⟨c1, cs1⟩
    · simp [lenChunk]
    · simp at h
  | succ k ih =>
    intro cs h n
    rcases cs with _ | ⟨c1, _ | ⟨c2, _ | ⟨c3, _ | ⟨c4, _ | ⟨c5, _ | ⟨c6, _ | ⟨c7, _ | ⟨c8, rest⟩⟩⟩⟩⟩⟩⟩⟩
    · simp [lenChunk]
    · simp [lenChunk]; omega
    · simp [lenChunk]; omega
    · simp [lenChunk]; omega
    · simp [lenChunk]; omega
    · simp [lenChunk]; omega
    · simp [lenChunk]; omega
    · simp [lenChunk]; omega
    · have hr : rest.length ≤ k := by simp at h; omega
      have := ih rest hr (n + 8)
      simp only [lenChunk, this, List.length_cons]
      omega

theorem pyLen_eq (s : String) : pyLen s = s.length := by
  unfold pyLen
  have := lenChunk_le_aux s.data.length s.data (Nat.le_refl _) 0
  simpa using this

theorem dropLead_length {p cs r : List Char} (h : dropLead p cs = some r) :
    cs.length = p.length + r.length := by
  induction p generalizing cs r with
  | nil => simp [dropLead] at h; simp [h]
  | cons x xs ih =>
    cases cs with
    | nil => simp [dropLead] at h
    | cons c cs' =>
      simp only [dropLead] at h
      split_ifs at h
      have := ih h
      simp only [List.length_cons, this]
      omega

theorem dropLead_append {p as bs r : List Char} (h : dropLead p as = some r) :
    dropLead p (as ++ bs) = some (r ++ bs) := by
  induction p generalizing as r with
  | nil => simp [dropLead] at h ⊢; simp [h]
  | cons x xs ih =>
    cases as with
    | nil => simp [dropLead] at h
    | cons a as' =>
      by_cases hc : a = x
      · simp only [dropLead, List.cons_append, if_pos hc] at h ⊢
        exact ih h
      · simp only [dropLead, List.cons_append, if_neg hc] at h
        exact absurd h (by simp)

theorem hasSubL_length {pat cs : List Char} (h : hasSubL pat cs = true) :
    pat.length ≤ cs.length := by
  induction cs with
  | nil =>
    unfold hasSubL at h
    cases hp : dropLead pat [] with
    | none => rw [hp] at h; simp at h
    | some r =>
      have := dropLead_length hp
      simp only [List.length_nil, List.length_cons] at this ⊢
      omega
  | cons c rest ih =>
    unfold hasSubL at h
    rcases Bool.or_eq_true_iff.mp h with h1 | h2
    · cases hp : dropLead pat (c :: rest) with
      | none => rw [hp] at h1; simp at h1
      | some r =>
        have := dropLead_length hp
        simp only [List.length_cons] at this ⊢
        omega
    · have := ih h2
      simp only [List.length_cons]
      omega

theorem hasSubL_append_left {pat as bs : List Char} (h : hasSubL pat as = true) :
    hasSubL pat (as ++ bs) = true := by
  induction as with
  | nil =>
    unfold hasSubL at h
    cases hp : dropLead pat [] with
    | none => rw [hp] at h; simp at h
    | some r =>
      have hall := @dropLead_append pat [] bs r hp
      simp only [List.nil_append] at hall ⊢
      cases bs with
      | nil => unfold hasSubL; simp [hall]
      | cons x xs => unfold hasSubL; simp [hall]
  | cons c rest ih =>
    unfold hasSubL at h
    rcases Bool.or_eq_true_iff.mp h with h1 | h2
    · cases hp : dropLead pat (c :: rest) with
      | none => rw [hp] at h1; simp at h1
      | some r =>
        have hall := @dropLead_append pat (c :: rest) bs r hp
        simp only [List.cons_append] at hall ⊢
        unfold hasSubL
        simp [hall]
    · simp only [List.cons_append]
      unfold hasSubL
      simp only [Bool.or_eq_true]
      exact Or.inr (ih h2)

theorem hasSubL_append_right {pat as bs : List Char} (h : hasSubL pat bs = true) :
    hasSubL pat (as ++ bs) = true := by
  induction as with
  | nil => simpa using h
  | cons c rest ih =>
    simp only [List.cons_append]
    unfold hasSubL
    simp only [Bool.or_eq_true]
    exact Or.inr ih

theorem hasSub_length {s pat : String} (h : hasSub s pat = true) :
    pat.length ≤ s.length :=
  hasSubL_length h

theorem hasSub_append_left {a b pat : String} (h : hasSub a pat = true) :
    hasSub (a ++ b) pat = true := by
  unfold hasSub at h ⊢
  exact hasSubL_append_left h

theorem hasSub_append_right {a b pat : String} (h : hasSub b pat = true) :
    hasSub (a ++ b) pat = true := by
  unfold hasSub at h ⊢
  exact hasSubL_append_right h

theorem ne_empty_of_length_pos {s : String} (h : 0 < s.length) : s ≠ "" := by
  intro he
  rw [he] at h
  simp at h

theorem eatLangs_length (langs : List (List Char)) (cs : List Char) :
    (eatLangs langs cs).length ≤ cs.length := by
  induction langs with
  | nil => simp [eatLangs]
  | cons l ls ih =>
    unfold eatLangs
    cases hp : dropLead l cs with
    | some r =>
      simp only [hp]
      have := dropLead_length hp
      omega
    | none => simpa only [hp] using ih

theorem eatNl_length (cs : List Char) : (eatNl cs).length ≤ cs.length := by
  unfold eatNl
  cases cs with
  | nil => exact Nat.le_refl _
  | cons c r =>
    by_cases hc : c = '\n'
    · simp [if_pos hc]
    · simp [if_neg hc]

theorem fenceStep_length {langs : List (List Char)} {c : Char} {rest r : List Char}
    (h : fenceStep langs c rest = some r) : r.length ≤ rest.length := by
  unfold fenceStep at h
  split_ifs at h
  · cases h3 : dropLead [btick, btick] rest with
    | some a3 =>
      rw [h3] at h
      have h1 := dropLead_length h3
      have h2 := eatLangs_length langs a3
      have h4 := eatNl_length (eatLangs langs a3)
      simp only [Option.some.injEq] at h
      subst h
      simp only [List.length_cons, List.length_nil] at h1
      omega
    | none => rw [h3] at h; exact absurd h (by simp)
  · cases h3 : dropLead [btick, btick, btick] rest with
    | some a =>
      rw [h3] at h
      have h1 := dropLead_length h3
      simp only [Option.some.injEq] at h
      subst h
      simp only [List.length_cons, List.length_nil] at h1
      omega
    | none => rw [h3] at h; exact absurd h (by simp)

theorem htmlTemplate_ne_empty (title body : String) : htmlTemplate title body ≠ "" := by
  apply ne_empty_of_length_pos
  simp only [htmlTemplate, String.length_append]
  have h1 : 0 < ("\n    </div>\n</body>\n</html>" : String).length := by decide
  omega

/-! ### Behavioural lemmas for the generator -/

theorem genRetryGo_succ (retries : Nat) (w : World) (le : String) (n : Nat) :
    genRetryGo retries w le (n + 1) =
      (let attempt := retries - (n + 1)
       let w1 : World := { w with calls := w.calls + 1 }
       match w.oracle w.calls with
       | some t =>
         let content := pyStrip t
         if content.length < minContentLength then
           let e := "Generated content too short: " ++ toString content.length ++ " chars"
           if n = 0 then genRetryGo retries w1 e n
           else genRetryGo retries
             { w1 with delays := w1.delays ++ [((3 : ℚ) / 2) ^ attempt * 1] } e n
         else (Except.ok content, w1)
       | none =>
         let e := "Invalid response structure"
         if n = 0 then genRetryGo retries w1 e n
         else genRetryGo retries
           { w1 with delays := w1.delays ++ [((3 : ℚ) / 2) ^ attempt * 1] } e n) := rfl

theorem genRetryGo_zero (retries : Nat) (w : World) (le : String) :
    genRetryGo retries w le 0 =
      (Except.error ("Generation failed after " ++ toString retries ++
        " attempts. Last error: " ++ le), w) := rfl

theorem generate_with_retry_spec (w : World) (p : String) :
    (∃ c w', generate_with_retry w p maxRetries = (Except.ok c, w') ∧
       minContentLength ≤ c.length ∧ w'.cacheMap = w.cacheMap ∧ w'.oracle = w.oracle ∧
       w'.calls ≤ w.calls + 3) ∨
    (∃ e, generate_with_retry w p maxRetries =
       (Except.error e,
        { w with calls := w.calls + 3, delays := w.delays ++ [(1 : ℚ), (3 : ℚ) / 2] })) := by
  have h3 : (3 : Nat) = 2 + 1 := rfl
  have h2 : (2 : Nat) = 1 + 1 := rfl
  have h1 : (1 : Nat) = 0 + 1 := rfl
  unfold generate_with_retry maxRetries
  rw [h3, genRetryGo_succ]
  simp only []
  rcases h0 : w.oracle w.calls with _ | t0
  all_goals simp only [h0]
  case some =>
    by_cases hl0 : (pyStrip t0).length < minContentLength
    case neg =>
      left
      exact ⟨pyStrip t0, { w with calls := w.calls + 1 }, by simp [if_neg hl0], by omega,
        rfl, rfl, by show w.calls + 1 ≤ w.calls + 3; omega⟩
    case pos =>
      simp only [if_pos hl0]
      norm_num
      rw [h2, genRetryGo_succ]
      simp only []
      rcases h1' : w.oracle (w.calls + 1) with _ | t1
      all_goals simp only [h1']
      case some =>
        by_cases hl1 : (pyStrip t1).length < minContentLength
        case neg =>
          left
          exact ⟨pyStrip t1, { w with calls := w.calls + 1 + 1, delays := w.delays ++ [1] },
            by simp [if_neg hl1], by omega, rfl, rfl,
            by show w.calls + 1 + 1 ≤ w.calls + 3; omega⟩
        case pos =>
          simp only [if_pos hl1]
          norm_num
          rw [show (1 : Nat) = 0 + 1 from rfl, genRetryGo_succ]
          simp only []
          rcases h2' : w.oracle (w.calls + 1 + 1) with _ | t2
          all_goals simp only [h2']
          case some =>
            by_cases hl2 : (pyStrip t2).length < minContentLength
            case neg =>
              left
              exact ⟨pyStrip t2,
                { w with calls := w.calls + 1 + 1 + 1, delays := w.delays ++ [1, 3 / 2] },
                by simp [if_neg hl2], by omega, rfl, rfl,
                by show w.calls + 1 + 1 + 1 ≤ w.calls + 3; omega⟩
            case pos =>
              simp only [if_pos hl2]
              norm_num [genRetryGo_zero]
          case none =>
            norm_num [genRetryGo_zero]
      case none =>
        norm_num
        rw [show (1 : Nat) = 0 + 1 from rfl, genRetryGo_succ]
        simp only []
        rcases h2' : w.oracle (w.calls + 1 + 1) with _ | t2
        all_goals simp only [h2']
        case some =>
          by_cases hl2 : (pyStrip t2).length < minContentLength
          case neg =>
            left
            exact ⟨pyStrip t2,
              { w with calls := w.calls + 1 + 1 + 1, delays := w.delays ++ [1, 3 / 2] },
              by simp [if_neg hl2], by omega, rfl, rfl,
              by show w.calls + 1 + 1 + 1 ≤ w.calls + 3; omega⟩
          case pos =>
            simp only [if_pos hl2]
            norm_num [genRetryGo_zero]
        case none =>
          norm_num [genRetryGo_zero]
  case none =>
    norm_num
    rw [h2, genRetryGo_succ]
    simp only []
    rcases h1' : w.oracle (w.calls + 1) with _ | t1
    all_goals simp only [h1']
    case some =>
      by_cases hl1 : (pyStrip t1).length < minContentLength
      case neg =>
        left
        exact ⟨pyStrip t1, { w with calls := w.calls + 1 + 1, delays := w.delays ++ [1] },
          by simp [if_neg hl1], by omega, rfl, rfl,
          by show w.calls + 1 + 1 ≤ w.calls + 3; omega⟩
      case pos =>
        simp only [if_pos hl1]
        norm_num
        rw [show (1 : Nat) = 0 + 1 from rfl, genRetryGo_succ]
        simp only []
        rcases h2' : w.oracle (w.calls + 1 + 1) with _ | t2
        all_goals simp only [h2']
        case some =>
          by_cases hl2 : (pyStrip t2).length < minContentLength
          case neg =>
            left
            exact ⟨pyStrip t2,
              { w with calls := w.calls + 1 + 1 + 1, delays := w.delays ++ [1, 3 / 2] },
              by simp [if_neg hl2], by omega, rfl, rfl,
              by show w.calls + 1 + 1 + 1 ≤ w.calls + 3; omega⟩
          case pos =>
            simp only [if_pos hl2]
            norm_num [genRetryGo_zero]
        case none =>
          norm_num [genRetryGo_zero]
    case none =>
      norm_num
      rw [show (1 : Nat) = 0 + 1 from rfl, genRetryGo_succ]
      simp only []
      rcases h2' : w.oracle (w.calls + 1 + 1) with _ | t2
      all_goals simp only [h2']
      case some =>
        by_cases hl2 : (pyStrip t2).length < minContentLength
        case neg =>
          left
          exact ⟨pyStrip t2,
            { w with calls := w.calls + 1 + 1 + 1, delays := w.delays ++ [1, 3 / 2] },
            by simp [if_neg hl2], by omega, rfl, rfl,
            by show w.calls + 1 + 1 + 1 ≤ w.calls + 3; omega⟩
        case pos =>
          simp only [if_pos hl2]
          norm_num [genRetryGo_zero]
      case none =>
        norm_num [genRetryGo_zero]

theorem generate_with_retry_cacheMap (w : World) (p : String) :
    (generate_with_retry w p maxRetries).2.cacheMap = w.cacheMap := by
  rcases generate_with_retry_spec w p with ⟨c, w', h, _, hc, _, _⟩ | ⟨e, h⟩
  · rw [h]; exact hc
  · rw [h]

theorem generate_with_retry_ok_length {w : World} {p c : String} {w' : World}
    (h : generate_with_retry w p maxRetries = (Except.ok c, w')) :
    minContentLength ≤ c.length := by
  rcases generate_with_retry_spec w p with ⟨c0, w0, h0, hl, _, _, _⟩ | ⟨e, h0⟩
  · rw [h0] at h
    obtain ⟨hc, -⟩ := Prod.mk.injEq .. ▸ h
    exact (Except.ok.injEq .. ▸ hc : c0 = c) ▸ hl
  · rw [h0] at h
    exact absurd (congrArg Prod.fst h) (by simp)

theorem genChunks_cacheMap (l : List (List Char)) (w : World) :
    (genChunks w l).2.cacheMap = w.cacheMap := by
  induction l generalizing w with
  | nil => rfl
  | cons ch rest ih =>
    unfold genChunks
    rcases hr : generate_with_retry w (String.mk ch) maxRetries with ⟨r1, w1⟩
    have hw1 : w1.cacheMap = w.cacheMap := by
      have := generate_with_retry_cacheMap w (String.mk ch)
      rw [hr] at this
      exact this
    cases r1 with
    | ok c =>
      simp only []
      rcases hg : genChunks w1 rest with ⟨r2, w2⟩
      have hw2 : w2.cacheMap = w1.cacheMap := by
        have := ih w1
        rw [hg] at this
        exact this
      cases r2 with
      | ok cr => simp only []; rw [hw2, hw1]
      | error e => simp only []; rw [hw2, hw1]
    | error e => simp only []; exact hw1

theorem generate_content_fresh_shape {w : World} {st : GenState} {p : String}
    {r : Except String String} {st' : GenState} {w' : World}
    (h : generate_content_fresh w st p = (r, st', w')) :
    ((∃ c, r = Except.ok c) ∧ st' = st) ∨
    ((∃ e, r = Except.error e) ∧
      ∃ es : List String, st' = { st with errors := st.errors ++ es }) := by
  unfold generate_content_fresh at h
  simp only [] at h
  rcases hr : (if 4000 < pyLen p then
      match genChunks w (chunksOf4000 p.data) with
      | (Except.ok c, w1) => (Except.ok c, { w1 with delays := w1.delays ++ [(1 : ℚ) / 2] })
      | (Except.error e, w1) => (Except.error e, w1)
    else generate_with_retry w p maxRetries) with ⟨rr, w1⟩
  rw [hr] at h
  cases rr with
  | ok content =>
    simp only [] at h
    by_cases hl : content.length < minContentLength
    · rw [if_pos hl] at h
      simp only [Prod.mk.injEq] at h
      obtain ⟨h1, h2, h3⟩ := h
      exact Or.inr ⟨⟨_, h1.symm⟩, _, h2.symm⟩
    · rw [if_neg hl] at h
      simp only [Prod.mk.injEq] at h
      obtain ⟨h1, h2, h3⟩ := h
      exact Or.inl ⟨⟨_, h1.symm⟩, h2.symm⟩
  | error e =>
    simp only [Prod.mk.injEq] at h
    obtain ⟨h1, h2, h3⟩ := h
    exact Or.inr ⟨⟨_, h1.symm⟩, _, h2.symm⟩

/-- Shape of `_generate_content`: success leaves the state untouched, an
exception path appends to `errors` and nothing else. -/
theorem generate_content_shape {w : World} {st : GenState} {p : String}
    {r : Except String String} {st' : GenState} {w' : World}
    (h : generate_content w st p = (r, st', w')) :
    ((∃ c, r = Except.ok c) ∧ st' = st) ∨
    ((∃ e, r = Except.error e) ∧
      ∃ es : List String, st' = { st with errors := st.errors ++ es }) := by
  unfold generate_content at h
  by_cases hp : p = ""
  · rw [if_pos hp] at h
    simp only [Prod.mk.injEq] at h
    obtain ⟨h1, h2, h3⟩ := h
    exact Or.inr ⟨⟨_, h1.symm⟩, [], by simp [← h2]⟩
  · rw [if_neg hp] at h
    rcases hc : cacheGet w (cacheKey p) with _ | v
    · rw [hc] at h
      exact generate_content_fresh_shape h
    · rw [hc] at h
      simp only [] at h
      by_cases hv : v = ""
      · rw [if_pos hv] at h
        exact generate_content_fresh_shape h
      · rw [if_neg hv] at h
        simp only [Prod.mk.injEq] at h
        obtain ⟨h1, h2, h3⟩ := h
        exact Or.inl ⟨⟨_, h1.symm⟩, h2.symm⟩

theorem cacheGet_congr {w1 w2 : World} (h : w1.cacheMap = w2.cacheMap) (k : String) :
    cacheGet w1 k = cacheGet w2 k := by
  unfold cacheGet
  rw [h]

theorem cacheGet_cacheSet (w : World) (k0 v0 k : String) :
    cacheGet (cacheSet w k0 v0) k = if k0 == k then some v0 else cacheGet w k := by
  unfold cacheGet cacheSet
  by_cases hk : k0 == k
  · simp only [List.find?, hk, if_pos hk]
    simp
  · simp only [List.find?]
    rw [if_neg (by simpa using hk)]
    simp only [Bool.false_eq_true] at hk
    simp [hk]

/-- The world component of the pre-check generation run inside
`generate_content_fresh` keeps the cache untouched. -/
theorem generate_content_fresh_run_cacheMap (w : World) (p : String) :
    (if 4000 < pyLen p then
      match genChunks w (chunksOf4000 p.data) with
      | (Except.ok c, w1) => (Except.ok c, { w1 with delays := w1.delays ++ [(1 : ℚ) / 2] })
      | (Except.error e, w1) => (Except.error e, w1)
    else generate_with_retry w p maxRetries).2.cacheMap = w.cacheMap := by
  by_cases hl : 4000 < pyLen p
  · rw [if_pos hl]
    rcases hg : genChunks w (chunksOf4000 p.data) with ⟨rg, w1⟩
    have hmap : w1.cacheMap = w.cacheMap := by
      have := genChunks_cacheMap (chunksOf4000 p.data) w
      rw [hg] at this
      exact this
    cases rg with
    | ok c => simpa using hmap
    | error e => simpa using hmap
  · rw [if_neg hl]
    exact generate_with_retry_cacheMap w p

/-- A successful `_generate_content` returns at least
`MIN_CONTENT_LENGTH` characters, provided every already-cached value does
(the only way a shorter string could come back is a cache hit). -/
theorem generate_content_ok_length {w : World} {st : GenState} {p c : String}
    {st' : GenState} {w' : World} (hinv : CacheInv w)
    (h : generate_content w st p = (Except.ok c, st', w')) :
    minContentLength ≤ c.length := by
  unfold generate_content at h
  by_cases hp : p = ""
  · rw [if_pos hp] at h
    simp at h
  · rw [if_neg hp] at h
    have fresh : ∀ (hf : generate_content_fresh w st p = (Except.ok c, st', w')),
        minContentLength ≤ c.length := by
      intro hf
      unfold generate_content_fresh at hf
      simp only [] at hf
      rcases hr : (if 4000 < pyLen p then
          match genChunks w (chunksOf4000 p.data) with
          | (Except.ok cc, w1) => (Except.ok cc, { w1 with delays := w1.delays ++ [(1 : ℚ) / 2] })
          | (Except.error e, w1) => (Except.error e, w1)
        else generate_with_retry w p maxRetries) with ⟨rr, w1⟩
      rw [hr] at hf
      cases rr with
      | ok content =>
        simp only [] at hf
        by_cases hl : content.length < minContentLength
        · rw [if_pos hl] at hf
          simp at hf
        · rw [if_neg hl] at hf
          simp only [Prod.mk.injEq, Except.ok.injEq] at hf
          obtain ⟨h1, -, -⟩ := hf
          subst h1
          omega
      | error e => simp at hf
    rcases hc : cacheGet w (cacheKey p) with _ | v
    · rw [hc] at h
      exact fresh h
    · rw [hc] at h
      simp only [] at h
      by_cases hv : v = ""
      · rw [if_pos hv] at h
        exact fresh h
      · rw [if_neg hv] at h
        simp only [Prod.mk.injEq, Except.ok.injEq] at h
        obtain ⟨h1, -, -⟩ := h
        exact h1 ▸ hinv _ _ hc

/-- `_generate_content` preserves the cache invariant: the only write is
guarded by the final length check. -/
theorem generate_content_cacheInv {w : World} {st : GenState} {p : String}
    {r : Except String String} {st' : GenState} {w' : World} (hinv : CacheInv w)
    (h : generate_content w st p = (r, st', w')) : CacheInv w' := by
  unfold generate_content at h
  by_cases hp : p = ""
  · rw [if_pos hp] at h
    simp only [Prod.mk.injEq] at h
    obtain ⟨-, -, h3⟩ := h
    exact h3 ▸ hinv
  · rw [if_neg hp] at h
    have fresh : ∀ (hf : generate_content_fresh w st p = (r, st', w')), CacheInv w' := by
      intro hf
      unfold generate_content_fresh at hf
      simp only [] at hf
      rcases hr : (if 4000 < pyLen p then
          match genChunks w (chunksOf4000 p.data) with
          | (Except.ok cc, w1) => (Except.ok cc, { w1 with delays := w1.delays ++ [(1 : ℚ) / 2] })
          | (Except.error e, w1) => (Except.error e, w1)
        else generate_with_retry w p maxRetries) with ⟨rr, w1⟩
      have hmap : w1.cacheMap = w.cacheMap := by
        have := generate_content_fresh_run_cacheMap w p
        rw [hr] at this
        exact this
      rw [hr] at hf
      have hw1inv : CacheInv w1 := by
        intro k v hkv
        exact hinv k v ((cacheGet_congr hmap k) ▸ hkv)
      cases rr with
      | ok content =>
        simp only [] at hf
        by_cases hl : content.length < minContentLength
        · rw [if_pos hl] at hf
          simp only [Prod.mk.injEq] at hf
          obtain ⟨-, -, h3⟩ := hf
          exact h3 ▸ hw1inv
        · rw [if_neg hl] at hf
          simp only [Prod.mk.injEq] at hf
          obtain ⟨-, -, h3⟩ := hf
          subst h3
          intro k v hkv
          rw [cacheGet_cacheSet] at hkv
          by_cases hk : cacheKey p == k
          · rw [if_pos hk] at hkv
            obtain rfl : content = v := by simpa using hkv
            omega
          · rw [if_neg hk] at hkv
            exact hw1inv k v hkv
      | error e =>
        simp only [Prod.mk.injEq] at hf
        obtain ⟨-, -, h3⟩ := hf
        exact h3 ▸ hw1inv
    rcases hc : cacheGet w (cacheKey p) with _ | v
    · rw [hc] at h
      exact fresh h
    · rw [hc] at h
      simp only [] at h
      by_cases hv : v = ""
      · rw [if_pos hv] at h
        exact fresh h
      · rw [if_neg hv] at h
        simp only [Prod.mk.injEq] at h
        obtain ⟨-, -, h3⟩ := h
        exact h3 ▸ hinv

/-- The single-request behaviour of `_generate_content` below the chunk
threshold: either at least `MIN_CONTENT_LENGTH` characters come back, or
the retry loop made exactly `MAX_RETRIES` calls, sleeping
`1.5^0` and `1.5^1` seconds after the two failed non-final attempts. -/
theorem generate_content_retry_spec {w : World} {st : GenState} {p : String}
    {r : Except String String} {st' : GenState} {w' : World}
    (hp : p ≠ "") (hlen : p.length < 4000) (hinv : CacheInv w)
    (h : generate_content w st p = (r, st', w')) :
    (∃ c, r = Except.ok c ∧ minContentLength ≤ c.length) ∨
    (∃ e, r = Except.error e ∧ w'.calls = w.calls + maxRetries ∧
      w'.delays = w.delays ++ [(1 : ℚ), (3 : ℚ) / 2]) := by
  have hfresh : ∀ (hf : generate_content_fresh w st p = (r, st', w')),
      (∃ c, r = Except.ok c ∧ minContentLength ≤ c.length) ∨
      (∃ e, r = Except.error e ∧ w'.calls = w.calls + maxRetries ∧
        w'.delays = w.delays ++ [(1 : ℚ), (3 : ℚ) / 2]) := by
    intro hf
    unfold generate_content_fresh at hf
    simp only [] at hf
    rw [if_neg (by rw [pyLen_eq]; omega)] at hf
    rcases generate_with_retry_spec w p with ⟨c0, w0, hr, hl0, -, -, -⟩ | ⟨e0, hr⟩
    · rw [hr] at hf
      simp only [] at hf
      rw [if_neg (by omega)] at hf
      simp only [Prod.mk.injEq] at hf
      obtain ⟨h1, -, -⟩ := hf
      exact Or.inl ⟨c0, h1.symm, hl0⟩
    · rw [hr] at hf
      simp only [Prod.mk.injEq] at hf
      obtain ⟨h1, -, h3⟩ := hf
      refine Or.inr ⟨e0, h1.symm, ?_, ?_⟩
      · rw [← h3]
        rfl
      · rw [← h3]
  unfold generate_content at h
  rw [if_neg hp] at h
  rcases hc : cacheGet w (cacheKey p) with _ | v
  · rw [hc] at h
    exact hfresh h
  · rw [hc] at h
    simp only [] at h
    by_cases hv : v = ""
    · rw [if_pos hv] at h
      exact hfresh h
    · rw [if_neg hv] at h
      simp only [Prod.mk.injEq] at h
      obtain ⟨h1, -, -⟩ := h
      exact Or.inl ⟨v, h1.symm, hinv _ _ hc⟩

/-- Case analysis of `analyze_structure`: success sets exactly the
structure and the 25% progress; failure appends one or two error entries
and changes nothing else. -/
theorem analyze_spec {w : World} {st : GenState} {d : String}
    {res : PhaseResult} {st' : GenState} {w' : World}
    (h : analyze_structure w st d = (res, st', w')) :
    (res.status = "success" ∧ ∃ ws, st' = { st with struct := some ws, progress := 25 }) ∨
    (res.status = "error" ∧
      ∃ es : List String, es ≠ [] ∧ st' = { st with errors := st.errors ++ es }) := by
  unfold analyze_structure at h
  by_cases hd : d = ""
  · rw [if_pos hd] at h
    simp only [Prod.mk.injEq] at h
    obtain ⟨h1, h2, -⟩ := h
    exact Or.inr ⟨by rw [← h1], ["No description provided"], by simp, h2.symm⟩
  · rw [if_neg hd] at h
    rcases hg : generate_content w st (structurePrompt d) with ⟨rg, st1, w1⟩
    rw [hg] at h
    cases rg with
    | error e =>
      simp only [] at h
      rcases generate_content_shape hg with ⟨⟨c, hc⟩, -⟩ | ⟨-, es0, hst1⟩
      · exact absurd hc (by simp)
      · subst hst1
        simp only [Prod.mk.injEq] at h
        obtain ⟨h1, h2, -⟩ := h
        refine Or.inr ⟨by rw [← h1], es0 ++ ["Structure analysis failed: " ++ e], by simp, ?_⟩
        rw [← h2]
        simp [List.append_assoc]
    | ok content =>
      simp only [] at h
      rcases generate_content_shape hg with ⟨-, hst1⟩ | ⟨⟨e, he⟩, -⟩
      · subst hst1
        rcases hv : validate_and_clean_json content with e | data
        · rw [hv] at h
          simp only [Prod.mk.injEq] at h
          obtain ⟨h1, h2, -⟩ := h
          exact Or.inr ⟨by rw [← h1], ["Structure analysis failed: " ++ e], by simp, h2.symm⟩
        · rw [hv] at h
          simp only [] at h
          rcases hm : missingKeys requiredKeys data with e | missing
          · rw [hm] at h
            simp only [Prod.mk.injEq] at h
            obtain ⟨h1, h2, -⟩ := h
            exact Or.inr ⟨by rw [← h1], ["Structure analysis failed: " ++ e], by simp, h2.symm⟩
          · rw [hm] at h
            simp only [] at h
            by_cases hmiss : missing.isEmpty
            · rw [if_pos hmiss] at h
              cases data with
              | obj kvs =>
                simp only [] at h
                rcases hmk : mkWebsiteStructure kvs with e | ws
                · rw [hmk] at h
                  simp only [Prod.mk.injEq] at h
                  obtain ⟨h1, h2, -⟩ := h
                  exact Or.inr ⟨by rw [← h1], ["Structure analysis failed: " ++ e], by simp,
                    h2.symm⟩
                · rw [hmk] at h
                  simp only [Prod.mk.injEq] at h
                  obtain ⟨h1, h2, -⟩ := h
                  exact Or.inl ⟨by rw [← h1], ws, h2.symm⟩
              | null =>
                simp only [Prod.mk.injEq] at h
                obtain ⟨h1, h2, -⟩ := h
                exact Or.inr ⟨by rw [← h1], _, by simp, h2.symm⟩
              | bool b =>
                simp only [Prod.mk.injEq] at h
                obtain ⟨h1, h2, -⟩ := h
                exact Or.inr ⟨by rw [← h1], _, by simp, h2.symm⟩
              | num n =>
                simp only [Prod.mk.injEq] at h
                obtain ⟨h1, h2, -⟩ := h
                exact Or.inr ⟨by rw [← h1], _, by simp, h2.symm⟩
              | str s =>
                simp only [Prod.mk.injEq] at h
                obtain ⟨h1, h2, -⟩ := h
                exact Or.inr ⟨by rw [← h1], _, by simp, h2.symm⟩
              | arr xs =>
                simp only [Prod.mk.injEq] at h
                obtain ⟨h1, h2, -⟩ := h
                exact Or.inr ⟨by rw [← h1], _, by simp, h2.symm⟩
            · rw [if_neg hmiss] at h
              simp only [Prod.mk.injEq] at h
              obtain ⟨h1, h2, -⟩ := h
              exact Or.inr ⟨by rw [← h1], _, by simp, h2.symm⟩
      · exact absurd he (by simp)

/-- Case analysis of `generate_html`.  On success the cleaned document is
the fixed template (hence non-empty) whenever the cache invariant rules
out degenerate cached content; on failure only `errors` grows. -/
theorem html_spec {ext : Ext} {w : World} {st : GenState} {d : String}
    {res : PhaseResult} {st' : GenState} {w' : World}
    (h : generate_html ext w st d = (res, st', w')) :
    (res.status = "success" ∧ ∃ html2 comps ws2,
       st' = { st with warnings := st.warnings ++ ws2, components := comps,
                       html := html2, progress := 50 } ∧
       (html2 = "" ∨ ∃ t b, html2 = htmlTemplate t b) ∧
       (CacheInv w → html2 ≠ "")) ∨
    (res.status = "error" ∧
      ∃ es : List String, es ≠ [] ∧ st' = { st with errors := st.errors ++ es }) := by
  unfold generate_html at h
  by_cases hd : d = ""
  · rw [if_pos hd] at h
    simp only [Prod.mk.injEq] at h
    obtain ⟨h1, h2, -⟩ := h
    exact Or.inr ⟨by rw [← h1], ["No description provided"], by simp, h2.symm⟩
  · rw [if_neg hd] at h
    simp only [] at h
    rcases hg : generate_content w st
        (htmlPrompt d (jsonDumps (match st.struct with
          | some ws => ws.components | none => Json.arr []))) with ⟨rg, st1, w1⟩
    rw [hg] at h
    cases rg with
    | error e =>
      simp only [] at h
      rcases generate_content_shape hg with ⟨⟨c, hc⟩, -⟩ | ⟨-, es0, hst1⟩
      · exact absurd hc (by simp)
      · subst hst1
        simp only [Prod.mk.injEq] at h
        obtain ⟨h1, h2, -⟩ := h
        refine Or.inr ⟨by rw [← h1], es0 ++ ["HTML generation failed: " ++ e], by simp, ?_⟩
        rw [← h2]
        simp [List.append_assoc]
    | ok content =>
      simp only [] at h
      rcases generate_content_shape hg with ⟨-, hst1⟩ | ⟨⟨e, he⟩, -⟩
      · subst hst1
        rcases hcl : clean_html ext.soupProc content with e | cleaned
        · rw [hcl] at h
          simp only [Prod.mk.injEq] at h
          obtain ⟨h1, h2, -⟩ := h
          exact Or.inr ⟨by rw [← h1], ["HTML generation failed: " ++ e], by simp, h2.symm⟩
        · rw [hcl] at h
          simp only [Prod.mk.injEq] at h
          obtain ⟨h1, h2, -⟩ := h
          refine Or.inl ⟨by rw [← h1], cleaned, ext.extractComps cleaned, validateEnhance ext st1,
            h2.symm, ?_, ?_⟩
          · unfold clean_html at hcl
            by_cases hcont : content = ""
            · rw [if_pos hcont] at hcl
              exact Or.inl (by simpa using hcl.symm)
            · rw [if_neg hcont] at hcl
              rcases hsoup : ext.soupProc (htmlStripped content) with _ | ⟨t, b⟩
              · rw [hsoup] at hcl
                simp at hcl
              · rw [hsoup] at hcl
                exact Or.inr ⟨t, b, by simpa using hcl.symm⟩
          · intro hinv
            have hlen := generate_content_ok_length hinv hg
            have hcont : content ≠ "" := by
              apply ne_empty_of_length_pos
              unfold minContentLength at hlen
              omega
            unfold clean_html at hcl
            rw [if_neg hcont] at hcl
            rcases hsoup : ext.soupProc (htmlStripped content) with _ | ⟨t, b⟩
            · rw [hsoup] at hcl
              simp at hcl
            · rw [hsoup] at hcl
              have : cleaned = htmlTemplate t b := by simpa using hcl.symm
              rw [this]
              exact htmlTemplate_ne_empty t b
      · exact absurd he (by simp)

/-- Case analysis of `generate_css`: the sequencing guard and generation
failures only append to `errors`; success writes the cleaned CSS and 75%
progress. -/
theorem css_spec {ext : Ext} {w : World} {st : GenState} {d : String}
    {res : PhaseResult} {st' : GenState} {w' : World}
    (h : generate_css ext w st d = (res, st', w')) :
    (res.status = "success" ∧ st.html ≠ "" ∧ ∃ content,
       st' = { st with css := clean_css ext.cssBeautify content, progress := 75 } ∧
       (CacheInv w → minContentLength ≤ content.length)) ∨
    (res.status = "error" ∧
      ∃ es : List String, es ≠ [] ∧ st' = { st with errors := st.errors ++ es }) := by
  unfold generate_css at h
  by_cases hh : st.html = ""
  · rw [if_pos hh] at h
    simp only [Prod.mk.injEq] at h
    obtain ⟨h1, h2, -⟩ := h
    exact Or.inr ⟨by rw [← h1], ["HTML must be generated before CSS"], by simp, h2.symm⟩
  · rw [if_neg hh] at h
    rcases hg : generate_content w st cssPrompt with ⟨rg, st1, w1⟩
    rw [hg] at h
    cases rg with
    | error e =>
      simp only [] at h
      rcases generate_content_shape hg with ⟨⟨c, hc⟩, -⟩ | ⟨-, es0, hst1⟩
      · exact absurd hc (by simp)
      · subst hst1
        simp only [Prod.mk.injEq] at h
        obtain ⟨h1, h2, -⟩ := h
        refine Or.inr ⟨by rw [← h1], es0 ++ ["CSS generation failed: " ++ e], by simp, ?_⟩
        rw [← h2]
        simp [List.append_assoc]
    | ok content =>
      simp only [] at h
      rcases generate_content_shape hg with ⟨-, hst1⟩ | ⟨⟨e, he⟩, -⟩
      · subst hst1
        simp only [Prod.mk.injEq] at h
        obtain ⟨h1, h2, -⟩ := h
        exact Or.inl ⟨by rw [← h1], hh, content, h2.symm,
          fun hinv => generate_content_ok_length hinv hg⟩
      · exact absurd he (by simp)

/-- Case analysis of `generate_js`: like CSS, with the strict-mode
prefixed content and 100% progress; the `completed` flag is untouched. -/
theorem js_spec {ext : Ext} {w : World} {st : GenState} {d : String}
    {res : PhaseResult} {st' : GenState} {w' : World}
    (h : generate_js ext w st d = (res, st', w')) :
    (res.status = "success" ∧ st.html ≠ "" ∧ ∃ content,
       st' = { st with js := clean_js ext.jsBeautify (jsContentPre ++ content),
                       progress := 100 } ∧
       (CacheInv w → minContentLength ≤ content.length)) ∨
    (res.status = "error" ∧
      ∃ es : List String, es ≠ [] ∧ st' = { st with errors := st.errors ++ es }) := by
  unfold generate_js at h
  by_cases hh : st.html = ""
  · rw [if_pos hh] at h
    simp only [Prod.mk.injEq] at h
    obtain ⟨h1, h2, -⟩ := h
    exact Or.inr ⟨by rw [← h1], ["HTML must be generated before JavaScript"], by simp, h2.symm⟩
  · rw [if_neg hh] at h
    rcases hg : generate_content w st jsPrompt with ⟨rg, st1, w1⟩
    rw [hg] at h
    cases rg with
    | error e =>
      simp only [] at h
      rcases generate_content_shape hg with ⟨⟨c, hc⟩, -⟩ | ⟨-, es0, hst1⟩
      · exact absurd hc (by simp)
      · subst hst1
        simp only [Prod.mk.injEq] at h
        obtain ⟨h1, h2, -⟩ := h
        refine Or.inr ⟨by rw [← h1], es0 ++ ["JavaScript generation failed: " ++ e], by simp, ?_⟩
        rw [← h2]
        simp [List.append_assoc]
    | ok content =>
      simp only [] at h
      rcases generate_content_shape hg with ⟨-, hst1⟩ | ⟨⟨e, he⟩, -⟩
      · subst hst1
        simp only [Prod.mk.injEq] at h
        obtain ⟨h1, h2, -⟩ := h
        exact Or.inl ⟨by rw [← h1], hh, content, h2.symm,
          fun hinv => generate_content_ok_length hinv hg⟩
      · exact absurd he (by simp)

/-- When the CSS beautifier does not raise, the cleaned CSS of a
non-empty input is non-empty: it contains the print marker or ends in the
appended print stub. -/
theorem clean_css_ne_empty {bc : String → Option String} {x : String}
    (hbc : ∀ s, (bc s).isSome = true) (hx : x ≠ "") : clean_css bc x ≠ "" := by
  unfold clean_css
  rw [if_neg hx]
  rcases hb : bc (cssStripped x) with _ | b
  · have := hbc (cssStripped x)
    rw [hb] at this
    simp at this
  · simp only []
    by_cases hd : hasSub b darkMarker
    · rw [if_pos hd]
      by_cases hp : hasSub b printMarker
      · rw [if_pos hp]
        apply ne_empty_of_length_pos
        have := hasSub_length hp
        have hpm : 0 < printMarker.length := by decide
        omega
      · rw [if_neg hp]
        apply ne_empty_of_length_pos
        rw [String.length_append]
        have : 0 < printStub.length := by decide
        omega
    · rw [if_neg hd]
      by_cases hp : hasSub (b ++ darkStub) printMarker
      · rw [if_pos hp]
        apply ne_empty_of_length_pos
        have := hasSub_length hp
        have hpm : 0 < printMarker.length := by decide
        omega
      · rw [if_neg hp]
        apply ne_empty_of_length_pos
        rw [String.length_append]
        have : 0 < printStub.length := by decide
        omega

/-- When the JS beautifier does not raise, the cleaned JS of a non-empty
input is non-empty: it contains a strict-mode directive or starts with
the prepended one. -/
theorem clean_js_ne_empty {bj : String → Option String} {x : String}
    (hbj : ∀ s, (bj s).isSome = true) (hx : x ≠ "") : clean_js bj x ≠ "" := by
  unfold clean_js
  rw [if_neg hx]
  rcases hb : bj (jsStripped x) with _ | b
  · have := hbj (jsStripped x)
    rw [hb] at this
    simp at this
  · simp only []
    by_cases hs : (hasSub b strictDq || hasSub b strictSq) = true
    · rw [if_pos hs]
      apply ne_empty_of_length_pos
      rcases Bool.or_eq_true_iff.mp hs with h1 | h1
      · have := hasSub_length h1
        have : 0 < strictDq.length := by decide
        omega
      · have := hasSub_length h1
        have hq : 0 < strictSq.length := by decide
        omega
    · rw [if_neg hs]
      apply ne_empty_of_length_pos
      rw [String.length_append]
      have : 0 < strictPre.length := by decide
      omega

/-- `analyze_structure` preserves the cache invariant. -/
theorem analyze_cacheInv {w : World} {st : GenState} {d : String}
    {res : PhaseResult} {st' : GenState} {w' : World} (hinv : CacheInv w)
    (h : analyze_structure w st d = (res, st', w')) : CacheInv w' := by
  unfold analyze_structure at h
  by_cases hd : d = ""
  · rw [if_pos hd] at h
    simp only [Prod.mk.injEq] at h
    exact h.2.2 ▸ hinv
  · rw [if_neg hd] at h
    rcases hg : generate_content w st (structurePrompt d) with ⟨rg, st1, w1⟩
    rw [hg] at h
    have hw1 : CacheInv w1 := generate_content_cacheInv hinv hg
    cases rg with
    | error e =>
      simp only [Prod.mk.injEq] at h
      exact h.2.2 ▸ hw1
    | ok content =>
      simp only [] at h
      rcases hv : validate_and_clean_json content with e | data
      · rw [hv] at h
        simp only [Prod.mk.injEq] at h
        exact h.2.2 ▸ hw1
      · rw [hv] at h
        simp only [] at h
        rcases hm : missingKeys requiredKeys data with e | missing
        · rw [hm] at h
          simp only [Prod.mk.injEq] at h
          exact h.2.2 ▸ hw1
        · rw [hm] at h
          simp only [] at h
          by_cases hmiss : missing.isEmpty
          · rw [if_pos hmiss] at h
            cases data with
            | obj kvs =>
              simp only [] at h
              rcases hmk : mkWebsiteStructure kvs with e | ws
              · rw [hmk] at h
                simp only [Prod.mk.injEq] at h
                exact h.2.2 ▸ hw1
              · rw [hmk] at h
                simp only [Prod.mk.injEq] at h
                exact h.2.2 ▸ hw1
            | null => simp only [Prod.mk.injEq] at h; exact h.2.2 ▸ hw1
            | bool b => simp only [Prod.mk.injEq] at h; exact h.2.2 ▸ hw1
            | num n => simp only [Prod.mk.injEq] at h; exact h.2.2 ▸ hw1
            | str s => simp only [Prod.mk.injEq] at h; exact h.2.2 ▸ hw1
            | arr xs => simp only [Prod.mk.injEq] at h; exact h.2.2 ▸ hw1
          · rw [if_neg hmiss] at h
            simp only [Prod.mk.injEq] at h
            exact h.2.2 ▸ hw1

/-- `generate_html` preserves the cache invariant. -/
theorem html_cacheInv {ext : Ext} {w : World} {st : GenState} {d : String}
    {res : PhaseResult} {st' : GenState} {w' : World} (hinv : CacheInv w)
    (h : generate_html ext w st d = (res, st', w')) : CacheInv w' := by
  unfold generate_html at h
  by_cases hd : d = ""
  · rw [if_pos hd] at h
    simp only [Prod.mk.injEq] at h
    exact h.2.2 ▸ hinv
  · rw [if_neg hd] at h
    simp only [] at h
    rcases hg : generate_content w st
        (htmlPrompt d (jsonDumps (match st.struct with
          | some ws => ws.components | none => Json.arr []))) with ⟨rg, st1, w1⟩
    rw [hg] at h
    have hw1 : CacheInv w1 := generate_content_cacheInv hinv hg
    cases rg with
    | error e =>
      simp only [Prod.mk.injEq] at h
      exact h.2.2 ▸ hw1
    | ok content =>
      simp only [] at h
      rcases hcl : clean_html ext.soupProc content with e | cleaned
      · rw [hcl] at h
        simp only [Prod.mk.injEq] at h
        exact h.2.2 ▸ hw1
      · rw [hcl] at h
        simp only [Prod.mk.injEq] at h
        exact h.2.2 ▸ hw1

/-- `generate_css` preserves the cache invariant. -/
theorem css_cacheInv {ext : Ext} {w : World} {st : GenState} {d : String}
    {res : PhaseResult} {st' : GenState} {w' : World} (hinv : CacheInv w)
    (h : generate_css ext w st d = (res, st', w')) : CacheInv w' := by
  unfold generate_css at h
  by_cases hh : st.html = ""
  · rw [if_pos hh] at h
    simp only [Prod.mk.injEq] at h
    exact h.2.2 ▸ hinv
  · rw [if_neg hh] at h
    rcases hg : generate_content w st cssPrompt with ⟨rg, st1, w1⟩
    rw [hg] at h
    have hw1 : CacheInv w1 := generate_content_cacheInv hinv hg
    cases rg with
    | error e =>
      simp only [Prod.mk.injEq] at h
      exact h.2.2 ▸ hw1
    | ok content =>
      simp only [Prod.mk.injEq] at h
      exact h.2.2 ▸ hw1

/-- `generate_js` preserves the cache invariant. -/
theorem js_cacheInv {ext : Ext} {w : World} {st : GenState} {d : String}
    {res : PhaseResult} {st' : GenState} {w' : World} (hinv : CacheInv w)
    (h : generate_js ext w st d = (res, st', w')) : CacheInv w' := by
  unfold generate_js at h
  by_cases hh : st.html = ""
  · rw [if_pos hh] at h
    simp only [Prod.mk.injEq] at h
    exact h.2.2 ▸ hinv
  · rw [if_neg hh] at h
    rcases hg : generate_content w st jsPrompt with ⟨rg, st1, w1⟩
    rw [hg] at h
    have hw1 : CacheInv w1 := generate_content_cacheInv hinv hg
    cases rg with
    | error e =>
      simp only [Prod.mk.injEq] at h
      exact h.2.2 ▸ hw1
    | ok content =>
      simp only [Prod.mk.injEq] at h
      exact h.2.2 ▸ hw1

/-! ### Branch lemmas for `process_generation` -/

theorem advance_structure_branch (ext : Ext) (w : World) (prompt : String) (st0 : GenState)
    (h : st0.struct = none) :
    process_generation ext w prompt (some st0) =
      (mkAdvResp "Starting structure analysis and component planning" ["analyze_structure"]
        "Analyzing website structure and planning components..." false st0.progress
        (analyze_structure w st0 prompt).2.1,
       (analyze_structure w st0 prompt).2.2) := by
  unfold process_generation
  simp [h, Option.getD]

theorem advance_html_branch (ext : Ext) (w : World) (prompt : String) (st0 : GenState)
    (h1 : st0.struct.isNone = false) (h2 : st0.html = "") :
    process_generation ext w prompt (some st0) =
      (mkAdvResp "Generating semantic HTML structure with accessibility features"
        ["generate_html"] "Creating accessible HTML markup with semantic structure..."
        false st0.progress (generate_html ext w st0 prompt).2.1,
       (generate_html ext w st0 prompt).2.2) := by
  unfold process_generation
  simp [h1, h2, Option.getD]

theorem advance_css_branch (ext : Ext) (w : World) (prompt : String) (st0 : GenState)
    (h1 : st0.struct.isNone = false) (h2 : st0.html ≠ "") (h3 : st0.css = "") :
    process_generation ext w prompt (some st0) =
      (mkAdvResp "Implementing responsive styles and modern CSS features" ["generate_css"]
        "Implementing responsive CSS with modern features..." false st0.progress
        (generate_css ext w st0 prompt).2.1,
       (generate_css ext w st0 prompt).2.2) := by
  unfold process_generation
  simp [h1, h2, h3, Option.getD]

theorem advance_js_branch (ext : Ext) (w : World) (prompt : String) (st0 : GenState)
    (h1 : st0.struct.isNone = false) (h2 : st0.html ≠ "") (h3 : st0.css ≠ "")
    (h4 : st0.js = "") :
    process_generation ext w prompt (some st0) =
      (mkAdvResp "Adding interactive features and performance optimizations" ["generate_js"]
        "Adding JavaScript functionality and optimizations..." false st0.progress
        (generate_js ext w st0 prompt).2.1,
       (generate_js ext w st0 prompt).2.2) := by
  unfold process_generation
  simp [h1, h2, h3, h4, Option.getD]

theorem advance_final_branch (ext : Ext) (w : World) (prompt : String) (st0 : GenState)
    (h1 : st0.struct.isNone = false) (h2 : st0.html ≠ "") (h3 : st0.css ≠ "")
    (h4 : st0.js ≠ "") :
    process_generation ext w prompt (some st0) =
      (mkAdvResp "Website generation completed successfully" ["final_output"]
        "Website generation completed with all features implemented!" true st0.progress st0,
       w) := by
  unfold process_generation
  simp [h1, h2, h3, h4, Option.getD]

theorem wOk_cacheInv : CacheInv wOk := by
  intro k v hkv
  simp [cacheGet, wOk, List.find?] at hkv

theorem wFail_cacheInv : CacheInv wFail := by
  intro k v hkv
  simp [cacheGet, wFail, List.find?] at hkv

/-! ### C3 — retry/backoff contract of a single generation request -/

/-- C3: for every non-empty prompt shorter than the 4000-character chunk
threshold, `_generate_content` either returns a string of at least
`MIN_CONTENT_LENGTH = 100` characters or fails after exactly
`MAX_RETRIES = 3` attempts, each failed non-final attempt being followed
by the backoff delay `1.5^attempt * 1` seconds (attempt indices 0 and 1).
The cache-invariant hypothesis rules out degenerate cached values, which
claim C10 shows the generator itself never writes. -/
theorem generation_request_retry_contract {w : World} {st : GenState} {prompt : String}
    {r : Except String String} {st' : GenState} {w' : World}
    (hp : prompt ≠ "") (hlen : prompt.length < 4000) (hinv : CacheInv w)
    (h : generate_content w st prompt = (r, st', w')) :
    (∃ c, r = Except.ok c ∧ minContentLength ≤ c.length) ∨
    (∃ e, r = Except.error e ∧ w'.calls = w.calls + maxRetries ∧
      w'.delays = w.delays ++ [((3 : ℚ) / 2) ^ 0 * 1, ((3 : ℚ) / 2) ^ 1 * 1]) := by
  rcases generate_content_retry_spec hp hlen hinv h with ⟨c, hc, hl⟩ | ⟨e, he, hcalls, hdelays⟩
  · exact Or.inl ⟨c, hc, hl⟩
  · refine Or.inr ⟨e, he, hcalls, ?_⟩
    rw [hdelays]
    norm_num

theorem generation_request_retry_contract_witness :
    (∃ c, (generate_content wFail ({} : GenState) "p").1 = Except.ok c ∧
       minContentLength ≤ c.length) ∨
    (∃ e, (generate_content wFail ({} : GenState) "p").1 = Except.error e ∧
      (generate_content wFail ({} : GenState) "p").2.2.calls = wFail.calls + maxRetries ∧
      (generate_content wFail ({} : GenState) "p").2.2.delays =
        wFail.delays ++ [((3 : ℚ) / 2) ^ 0 * 1, ((3 : ℚ) / 2) ^ 1 * 1]) :=
  generation_request_retry_contract (by decide) (by decide) wFail_cacheInv
    (Prod.mk.eta (p := (generate_content wFail ({} : GenState) "p").2).symm ▸
      Prod.mk.eta (p := generate_content wFail ({} : GenState) "p").symm)

/-! ### C10 — cached values meet the minimum content length -/

/-- C10: every value the content-generation path writes into the response
cache has at least `MIN_CONTENT_LENGTH = 100` characters — after any
`_generate_content` call, a cached value either was already present or
meets the minimum, so a later cache hit never returns degenerate content
that a fresh generation would have rejected. -/
theorem cache_write_min_length {w : World} {st : GenState} {prompt : String}
    {r : Except String String} {st' : GenState} {w' : World}
    (h : generate_content w st prompt = (r, st', w'))
    (k v : String) (hv : cacheGet w' k = some v) :
    cacheGet w k = some v ∨ minContentLength ≤ v.length := by
  unfold generate_content at h
  by_cases hp : prompt = ""
  · rw [if_pos hp] at h
    simp only [Prod.mk.injEq] at h
    exact Or.inl (h.2.2 ▸ hv)
  · rw [if_neg hp] at h
    have fresh : ∀ (hf : generate_content_fresh w st prompt = (r, st', w')),
        cacheGet w k = some v ∨ minContentLength ≤ v.length := by
      intro hf
      unfold generate_content_fresh at hf
      simp only [] at hf
      rcases hr : (if 4000 < pyLen prompt then
          match genChunks w (chunksOf4000 prompt.data) with
          | (Except.ok cc, w1) => (Except.ok cc, { w1 with delays := w1.delays ++ [(1 : ℚ) / 2] })
          | (Except.error e, w1) => (Except.error e, w1)
        else generate_with_retry w prompt maxRetries) with ⟨rr, w1⟩
      have hmap : w1.cacheMap = w.cacheMap := by
        have := generate_content_fresh_run_cacheMap w prompt
        rw [hr] at this
        exact this
      rw [hr] at hf
      cases rr with
      | ok content =>
        simp only [] at hf
        by_cases hl : content.length < minContentLength
        · rw [if_pos hl] at hf
          simp only [Prod.mk.injEq] at hf
          refine Or.inl ?_
          rw [← cacheGet_congr hmap k]
          exact hf.2.2 ▸ hv
        · rw [if_neg hl] at hf
          simp only [Prod.mk.injEq] at hf
          obtain ⟨-, -, h3⟩ := hf
          subst h3
          rw [cacheGet_cacheSet] at hv
          by_cases hk : cacheKey prompt == k
          · rw [if_pos hk] at hv
            obtain rfl : content = v := by simpa using hv
            exact Or.inr (by omega)
          · rw [if_neg hk] at hv
            refine Or.inl ?_
            rw [← cacheGet_congr hmap k]
            exact hv
      | error e =>
        simp only [Prod.mk.injEq] at hf
        refine Or.inl ?_
        rw [← cacheGet_congr hmap k]
        exact hf.2.2 ▸ hv
    rcases hc : cacheGet w (cacheKey prompt) with _ | v0
    · rw [hc] at h
      exact fresh h
    · rw [hc] at h
      simp only [] at h
      by_cases hv0 : v0 = ""
      · rw [if_pos hv0] at h
        exact fresh h
      · rw [if_neg hv0] at h
        simp only [Prod.mk.injEq] at h
        exact Or.inl (h.2.2 ▸ hv)

theorem cache_write_min_length_witness :
    cacheGet wOk (cacheKey "p") = some okStructJson ∨
      minContentLength ≤ okStructJson.length := by
  have h := cache_write_min_length
    (Prod.mk.eta (p := (generate_content wOk ({} : GenState) "p").2).symm ▸
      Prod.mk.eta (p := generate_content wOk ({} : GenState) "p").symm)
    (cacheKey "p") okStructJson (by decide)
  exact h

/-! ### C8 — a failing phase only appends to the error list -/

/-- C8: whatever phase runs, a failing execution (generation exception,
empty prompt, or sequencing guard) leaves `structure`, `html`, `css`,
`js`, `components`, `progress`, `completed` — and even `warnings` — as
they were, and appends a non-empty batch of messages to `errors`, so a
later call can retry the same phase. -/
theorem phase_failure_frame {ext : Ext} {w : World} {st : GenState} {d : String}
    {ph : Phase} {res : PhaseResult} {st' : GenState} {w' : World}
    (h : runPhase ext w st d ph = (res, st', w')) (he : res.status = "error") :
    st'.struct = st.struct ∧ st'.html = st.html ∧ st'.css = st.css ∧ st'.js = st.js ∧
    st'.components = st.components ∧ st'.progress = st.progress ∧
    st'.completed = st.completed ∧ st'.warnings = st.warnings ∧
    ∃ es : List String, es ≠ [] ∧ st'.errors = st.errors ++ es := by
  cases ph with
  | structureP =>
    rcases analyze_spec h with ⟨hs, -⟩ | ⟨-, es, hne, hst⟩
    · rw [hs] at he; simp at he
    · subst hst
      exact ⟨rfl, rfl, rfl, rfl, rfl, rfl, rfl, rfl, es, hne, rfl⟩
  | htmlP =>
    rcases html_spec h with ⟨hs, -⟩ | ⟨-, es, hne, hst⟩
    · rw [hs] at he; simp at he
    · subst hst
      exact ⟨rfl, rfl, rfl, rfl, rfl, rfl, rfl, rfl, es, hne, rfl⟩
  | cssP =>
    rcases css_spec (d := d) h with ⟨hs, -⟩ | ⟨-, es, hne, hst⟩
    · rw [hs] at he; simp at he
    · subst hst
      exact ⟨rfl, rfl, rfl, rfl, rfl, rfl, rfl, rfl, es, hne, rfl⟩
  | jsP =>
    rcases js_spec (d := d) h with ⟨hs, -⟩ | ⟨-, es, hne, hst⟩
    · rw [hs] at he; simp at he
    · subst hst
      exact ⟨rfl, rfl, rfl, rfl, rfl, rfl, rfl, rfl, es, hne, rfl⟩

theorem phase_failure_frame_witness :
    (runPhase extOk wOk ({} : GenState) "d" Phase.cssP).2.1.struct = ({} : GenState).struct ∧
    (runPhase extOk wOk ({} : GenState) "d" Phase.cssP).2.1.html = ({} : GenState).html ∧
    (runPhase extOk wOk ({} : GenState) "d" Phase.cssP).2.1.css = ({} : GenState).css ∧
    (runPhase extOk wOk ({} : GenState) "d" Phase.cssP).2.1.js = ({} : GenState).js ∧
    (runPhase extOk wOk ({} : GenState) "d" Phase.cssP).2.1.components =
      ({} : GenState).components ∧
    (runPhase extOk wOk ({} : GenState) "d" Phase.cssP).2.1.progress =
      ({} : GenState).progress ∧
    (runPhase extOk wOk ({} : GenState) "d" Phase.cssP).2.1.completed =
      ({} : GenState).completed ∧
    (runPhase extOk wOk ({} : GenState) "d" Phase.cssP).2.1.warnings =
      ({} : GenState).warnings ∧
    ∃ es : List String, es ≠ [] ∧
      (runPhase extOk wOk ({} : GenState) "d" Phase.cssP).2.1.errors =
        ({} : GenState).errors ++ es :=
  phase_failure_frame
    (Prod.mk.eta (p := (runPhase extOk wOk ({} : GenState) "d" Phase.cssP).2).symm ▸
      Prod.mk.eta (p := runPhase extOk wOk ({} : GenState) "d" Phase.cssP).symm)
    (by decide)

/-! ### C9 — `advance` on an empty state never skips ahead -/

/-- C9: one `advance` call on an empty state (no structure, empty
`html`/`css`/`js`) either sets the structure with progress 25 and leaves
`html`/`css`/`js` empty, or on failure leaves the structure unset and the
assets still empty — it never populates `html`, `css` or `js`. -/
theorem advance_empty_state {ext : Ext} {w : World} {prompt : String} {st : GenState}
    {r : AdvanceResponse} {w' : World}
    (h0 : st.struct = none) (h1 : st.html = "") (h2 : st.css = "") (h3 : st.js = "")
    (h : process_generation ext w prompt (some st) = (r, w')) :
    (r.current_state.struct.isSome = true ∧ r.current_state.progress = 25 ∧
      r.current_state.html = "" ∧ r.current_state.css = "" ∧ r.current_state.js = "") ∨
    (r.current_state.struct = none ∧ r.current_state.html = "" ∧
      r.current_state.css = "" ∧ r.current_state.js = "") := by
  rw [advance_structure_branch ext w prompt st h0] at h
  rcases hA : analyze_structure w st prompt with ⟨resA, stA, wA⟩
  rw [hA] at h
  simp only [Prod.mk.injEq] at h
  obtain ⟨hr, -⟩ := h
  have hcur : r.current_state = stA := by rw [← hr]; rfl
  rcases analyze_spec hA with ⟨-, ws, hst⟩ | ⟨-, es, -, hst⟩
  · subst hst
    rw [hcur]
    exact Or.inl ⟨rfl, rfl, h1, h2, h3⟩
  · subst hst
    rw [hcur]
    exact Or.inr ⟨h0, h1, h2, h3⟩

theorem advance_empty_state_witness :
    ((process_generation extOk wOk "a bakery landing page" (some {})).1.current_state.struct.isSome
        = true ∧
      (process_generation extOk wOk "a bakery landing page" (some {})).1.current_state.progress
        = 25 ∧
      (process_generation extOk wOk "a bakery landing page" (some {})).1.current_state.html = "" ∧
      (process_generation extOk wOk "a bakery landing page" (some {})).1.current_state.css = "" ∧
      (process_generation extOk wOk "a bakery landing page" (some {})).1.current_state.js = "") ∨
    ((process_generation extOk wOk "a bakery landing page" (some {})).1.current_state.struct
        = none ∧
      (process_generation extOk wOk "a bakery landing page" (some {})).1.current_state.html = "" ∧
      (process_generation extOk wOk "a bakery landing page" (some {})).1.current_state.css = "" ∧
      (process_generation extOk wOk "a bakery landing page" (some {})).1.current_state.js = "") :=
  advance_empty_state rfl rfl rfl rfl
    (Prod.mk.eta (p := process_generation extOk wOk "a bakery landing page" (some {})).symm)

/-! ### C6 — cleaner behaviour when post-processing raises -/

/-- C6 (code bug): when structural post-processing raises, the CSS and JS
cleaners return the fence-stripped input as documented, but `_clean_html`
does not: its `except` handler evaluates `self.logger`, an attribute
`WebsiteGenerator.__init__` never sets, so the handler itself raises
`AttributeError` and the cleaner propagates an exception instead of
returning the fence-stripped input. -/
theorem cleaner_exception_paths :
    clean_html (fun _ => none) "<div>hi</div>" =
      Except.error "AttributeError: WebsiteGenerator object has no attribute logger" ∧
    clean_css (fun _ => none) "```css\nbody \x7b\x7d\n```" = "body \x7b\x7d" ∧
    clean_js (fun _ => none) "```js\nalert(1)\n```" = "alert(1)" :=
  ⟨rfl, by decide, by decide⟩

/-! ### C7 — payload shape returned by `POST /process-prompt/` -/

/-- C7 counterexample: with a model whose calls all fail, the structure
phase fails fatally (exhausted retries, two entries appended to
`errors`), yet the HTTP payload is `status: "success"` with no `error`
key, carrying only the errors list — exactly the payload shape the claim
says never occurs. -/
theorem error_payload_counterexample :
    (process_prompt extOk wFail none "make me a website" false).1 = 200 ∧
    (process_prompt extOk wFail none "make me a website" false).2.1.status = "success" ∧
    (process_prompt extOk wFail none "make me a website" false).2.1.error = none ∧
    (process_prompt extOk wFail none "make me a website" false).2.1.errors.isSome = true := by
  decide

/-- C7 (amended): only the empty-prompt rejection produces the
`(error, status := "error")` payload (HTTP 400); any non-empty prompt —
including one whose phase fails fatally — returns HTTP 200 with
`status := "success"`, no `error` key, and the errors list when non-empty
(`process_generation` never raises, so the view's 500 handler is
unreachable in this model). -/
theorem process_prompt_status (ext : Ext) (w : World) (stored : Option GenState)
    (prompt : String) (reset : Bool) :
    (prompt = "" → process_prompt ext w stored prompt reset =
      (400, { status := "error", error := some "No prompt provided" }, stored, w)) ∧
    (prompt ≠ "" → (process_prompt ext w stored prompt reset).1 = 200 ∧
      (process_prompt ext w stored prompt reset).2.1.status = "success" ∧
      (process_prompt ext w stored prompt reset).2.1.error = none) := by
  constructor
  · intro hp
    unfold process_prompt
    rw [if_pos hp]
  · intro hp
    unfold process_prompt
    rw [if_neg hp]
    exact ⟨rfl, rfl, rfl⟩

theorem process_prompt_status_witness :
    ("" = "" → process_prompt extOk wFail none "" false =
      (400, { status := "error", error := some "No prompt provided" }, none, wFail)) ∧
    ("" ≠ "" → (process_prompt extOk wFail none "" false).1 = 200 ∧
      (process_prompt extOk wFail none "" false).2.1.status = "success" ∧
      (process_prompt extOk wFail none "" false).2.1.error = none) :=
  process_prompt_status extOk wFail none "" false

/-! ### C1 — where the CSS sequencing guard actually lives -/

/-- C1 counterexample: `advance` on a state with empty `css` and empty
`html` (the fresh state) does not fail with a `SequenceError`: with a
well-behaved model the structure phase runs and succeeds, `errors` stays
empty, the state changes (`structure` is set), and one generator call is
made. -/
theorem css_guard_claim_counterexample :
    (process_generation extOk wOk "a bakery landing page" (some {})).1.current_state.errors
        = [] ∧
    (process_generation extOk wOk "a bakery landing page"
        (some {})).1.current_state.struct.isSome = true ∧
    (process_generation extOk wOk "a bakery landing page" (some {})).2.calls = 1 := by
  decide

/-- C1 (amended): when `html` is empty, `advance` dispatches to the
structure or HTML phase and never reaches the CSS phase; the
`SequenceError` guard lives in `generate_css` itself, which — when
invoked directly on a state with empty `html` — appends exactly
`"HTML must be generated before CSS"` to `errors`, changes no other
field, and touches neither the model nor the cache (the world is
returned unchanged, so no generator call is made). -/
theorem css_requires_html (ext : Ext) (w : World) (prompt d : String) (st : GenState)
    (h : st.html = "") :
    ((process_generation ext w prompt (some st)).1.moves = ["analyze_structure"] ∨
     (process_generation ext w prompt (some st)).1.moves = ["generate_html"]) ∧
    generate_css ext w st d =
      ({ status := "error", message := "HTML generation required first" },
       { st with errors := st.errors ++ ["HTML must be generated before CSS"] }, w) := by
  constructor
  · rcases hs : st.struct with _ | ws
    · rw [advance_structure_branch ext w prompt st hs]
      exact Or.inl rfl
    · rw [advance_html_branch ext w prompt st (by rw [hs]; rfl) h]
      exact Or.inr rfl
  · unfold generate_css
    rw [if_pos h]

theorem css_requires_html_witness :
    ((process_generation extOk wOk "a bakery landing page" (some {})).1.moves
        = ["analyze_structure"] ∨
     (process_generation extOk wOk "a bakery landing page" (some {})).1.moves
        = ["generate_html"]) ∧
    generate_css extOk wOk ({} : GenState) "a bakery landing page" =
      ({ status := "error", message := "HTML generation required first" },
       { ({} : GenState) with errors := ({} : GenState).errors ++
           ["HTML must be generated before CSS"] }, wOk) :=
  css_requires_html extOk wOk "a bakery landing page" "a bakery landing page" {} rfl

/-! ### C5 — cleaner idempotence -/

/-- C5 counterexample: with a beautifier that returns already-formatted
text unchanged, `clean_css (clean_css "<fence>")` differs from
`clean_css "<fence>"` — the first pass strips the fence to the empty
string and appends the stubs, so its output begins with a blank line that
the second pass's `strip()` removes; `clean_js` fails the same way on a
whitespace-only input through the prepended directive's trailing
newlines.  (No stub or directive is duplicated; only the leading or
trailing whitespace changes.) -/
theorem clean_idempotence_counterexample :
    clean_css idBeautify (clean_css idBeautify "```") ≠ clean_css idBeautify "```" ∧
    clean_js idBeautify (clean_js idBeautify " ") ≠ clean_js idBeautify " " := by
  decide

/-- C5 (amended): the check-before-append logic itself is correct — a
successful CSS clean always outputs text containing the dark-mode and
print markers, cleaning any text already containing both markers appends
no stub, a successful JS clean always outputs text containing a
strict-mode directive, and cleaning text already containing one prepends
nothing.  Hence a second clean never inserts the stubs or the directive a
second time; exact idempotence `clean (clean x) = clean x` nevertheless
fails (see the counterexample) because the second pass re-strips leading
and trailing whitespace. -/
theorem clean_stub_no_reinsertion
    (bc bj : String → Option String) (x y u v : String)
    (hx : x ≠ "") (bx : String) (hbx : bc (cssStripped x) = some bx)
    (hy : y ≠ "") (b2 : String) (hb2 : bc (cssStripped y) = some b2)
    (hyd : hasSub b2 darkMarker = true) (hyp : hasSub b2 printMarker = true)
    (hu : u ≠ "") (bu : String) (hbu : bj (jsStripped u) = some bu)
    (hv : v ≠ "") (b4 : String) (hb4 : bj (jsStripped v) = some b4)
    (hvs : (hasSub b4 strictDq || hasSub b4 strictSq) = true) :
    (hasSub (clean_css bc x) darkMarker = true ∧
     hasSub (clean_css bc x) printMarker = true) ∧
    clean_css bc y = b2 ∧
    (hasSub (clean_js bj u) strictDq || hasSub (clean_js bj u) strictSq) = true ∧
    clean_js bj v = b4 := by
  refine ⟨?_, ?_, ?_, ?_⟩
  · unfold clean_css
    rw [if_neg hx, hbx]
    simp only []
    by_cases hd : hasSub bx darkMarker
    · rw [if_pos hd]
      by_cases hp : hasSub bx printMarker
      · rw [if_pos hp]
        exact ⟨hd, hp⟩
      · rw [if_neg hp]
        exact ⟨hasSub_append_left hd, hasSub_append_right (by decide)⟩
    · rw [if_neg hd]
      have hd2 : hasSub (bx ++ darkStub) darkMarker = true :=
        hasSub_append_right (by decide)
      by_cases hp : hasSub (bx ++ darkStub) printMarker
      · rw [if_pos hp]
        exact ⟨hd2, hp⟩
      · rw [if_neg hp]
        exact ⟨hasSub_append_left hd2, hasSub_append_right (by decide)⟩
  · unfold clean_css
    rw [if_neg hy, hb2]
    simp only []
    rw [if_pos hyd, if_pos hyp]
  · unfold clean_js
    rw [if_neg hu, hbu]
    simp only []
    by_cases hs : (hasSub bu strictDq || hasSub bu strictSq) = true
    · rw [if_pos hs]
      exact hs
    · rw [if_neg hs]
      have : hasSub (strictPre ++ bu) strictDq = true :=
        hasSub_append_left (by decide)
      simp [this]
  · unfold clean_js
    rw [if_neg hv, hb4]
    simp only []
    rw [if_pos hvs]

theorem clean_stub_no_reinsertion_witness :
    ((hasSub (clean_css idBeautify "a") darkMarker = true ∧
      hasSub (clean_css idBeautify "a") printMarker = true) ∧
     clean_css idBeautify ("abc" ++ darkStub ++ printStub) = "abc" ++ darkStub ++ printStub ∧
     (hasSub (clean_js idBeautify "x") strictDq ||
      hasSub (clean_js idBeautify "x") strictSq) = true ∧
     clean_js idBeautify ("\"use strict\";\nfoo()") = "\"use strict\";\nfoo()") :=
  clean_stub_no_reinsertion idBeautify idBeautify "a" ("abc" ++ darkStub ++ printStub)
    "x" ("\"use strict\";\nfoo()")
    (by decide) "a" (by decide)
    (by decide) ("abc" ++ darkStub ++ printStub) (by decide)
    (by decide) (by decide)
    (by decide) "x" (by decide)
    (by decide) ("\"use strict\";\nfoo()") (by decide)
    (by decide)

/-- C4 counterexample: on model output that parses as JSON but is missing
required keys, `_validate_and_clean_json` raises `ValueError` — the
handler catches only `json.JSONDecodeError` — so the phase fails with an
error status and progress 0 instead of falling back to the default
`DesignTokens` and succeeding. -/
theorem missing_keys_counterexample :
    (analyze_structure wMissingKey ({} : GenState) "a bakery landing page").1.status
        = "error" ∧
    (analyze_structure wMissingKey ({} : GenState)
        "a bakery landing page").2.1.struct.isNone = true ∧
    (analyze_structure wMissingKey ({} : GenState) "a bakery landing page").2.1.progress = 0 ∧
    (analyze_structure wMissingKey ({} : GenState) "a bakery landing page").2.1.errors ≠ [] := by
  decide

/-- C4 (amended): when the model output can be parsed neither strictly
nor via the embedded-block pattern, the analyzer falls back to the
documented default `DesignTokens` value and the phase succeeds with
progress 25.  (Parseable output with missing keys instead raises and
fails the phase — see the counterexample — and a successful
embedded-block parse skips the key check entirely.) -/
theorem analyze_unparseable_fallback {w : World} {st : GenState} {d c : String}
    {st1 : GenState} {w1 : World}
    (hd : d ≠ "")
    (hgen : generate_content w st (structurePrompt d) = (Except.ok c, st1, w1))
    (hparse : (jsonParse c).isNone = true)
    (hsub : ∀ s, extractBraces c = some s → (jsonParse s).isNone = true) :
    analyze_structure w st d =
      ({ status := "success" },
       { st1 with struct := some defaultWebsiteStructure, progress := 25 }, w1) := by
  unfold analyze_structure
  rw [if_neg hd, hgen]
  simp only []
  rw [Option.isNone_iff_eq_none] at hparse
  have hval : validate_and_clean_json c = Except.ok defaultStructureJson := by
    unfold validate_and_clean_json
    rw [hparse]
    rcases hx : extractBraces c with _ | s
    · rfl
    · have := hsub s hx
      rw [Option.isNone_iff_eq_none] at this
      simp only []
      rw [this]
  rw [hval]
  simp only []
  have hmiss : missingKeys requiredKeys defaultStructureJson = Except.ok [] := rfl
  rw [hmiss]
  rfl

theorem analyze_unparseable_fallback_witness :
    (analyze_structure wNotJson ({} : GenState) "an online portfolio").1.status = "success" ∧
    (analyze_structure wNotJson ({} : GenState) "an online portfolio").2.1.progress = 25 ∧
    (analyze_structure wNotJson ({} : GenState) "an online portfolio").2.1.struct
      = some defaultWebsiteStructure := by
  have h := @analyze_unparseable_fallback wNotJson {} "an online portfolio" notJsonText _ _
    (by decide) rfl (by decide)
    (by
      intro s hs
      have hn : extractBraces notJsonText = none := by decide
      rw [hn] at hs
      exact Option.noConfusion hs)
  rw [h]
  exact ⟨rfl, rfl, rfl⟩

/-- C2 counterexample: for the bakery description with a well-behaved
model, all four calls succeed (no errors) and hit the claimed milestones
— progress 25 with empty `html`, then 50 with `html` set, then 75 with
`css` set, then 100 with `js` set — but the `completed` flag of the
resulting state is still `false` after the fourth call: `generate_js`
sets `progress = 100` and never touches `completed`, which only the fifth
call reports (in the response, not the state). -/
theorem four_call_completed_counterexample :
    adv1.1.current_state.errors = [] ∧
    adv1.1.current_state.progress = 25 ∧ adv1.1.current_state.html = "" ∧
    adv2.1.current_state.progress = 50 ∧ adv2.1.current_state.html ≠ "" ∧
    adv3.1.current_state.progress = 75 ∧ adv3.1.current_state.css ≠ "" ∧
    adv4.1.current_state.errors = [] ∧
    adv4.1.current_state.progress = 100 ∧ adv4.1.current_state.js ≠ "" ∧
    adv4.1.current_state.completed = false ∧
    adv5.1.completed = true ∧ adv5.1.current_state.completed = false := by
  decide

theorem advance_none_eq (ext : Ext) (w : World) (d : String) :
    process_generation ext w d none = process_generation ext w d (some {}) := rfl

/-- C2 (amended): in the stateful per-call flow, for any description,
four successive successful `advance` calls (success = the call appended
no errors) on an initially empty state walk the phases one per call:
progress 25 with `html` still empty, then 50 with `html` non-empty, then
75 with `css` non-empty, then 100 with `js` non-empty — but the
`completed` flag of the resulting state is still `false` after the
fourth call; only a fifth call reports completion, and in its response
only, never in the state.  (The claim's fourth conjunct,
`completed = true` after call four, is refuted by the counterexample.)
The beautifiers are assumed not to raise and cached values to satisfy
the minimum-length invariant, which every reachable cache does by C10. -/
theorem stateful_flow_progression
    (ext : Ext) (w0 : World) (d : String)
    (hbc : ∀ s, (ext.cssBeautify s).isSome = true)
    (hbj : ∀ s, (ext.jsBeautify s).isSome = true)
    (hinv : CacheInv w0)
    (r1 r2 r3 r4 r5 : AdvanceResponse) (w1 w2 w3 w4 w5 : World)
    (h1 : process_generation ext w0 d none = (r1, w1))
    (e1 : r1.current_state.errors = [])
    (h2 : process_generation ext w1 d (some r1.current_state) = (r2, w2))
    (e2 : r2.current_state.errors = [])
    (h3 : process_generation ext w2 d (some r2.current_state) = (r3, w3))
    (e3 : r3.current_state.errors = [])
    (h4 : process_generation ext w3 d (some r3.current_state) = (r4, w4))
    (e4 : r4.current_state.errors = [])
    (h5 : process_generation ext w4 d (some r4.current_state) = (r5, w5)) :
    (r1.current_state.progress = 25 ∧ r1.current_state.html = "") ∧
    (r2.current_state.progress = 50 ∧ r2.current_state.html ≠ "") ∧
    (r3.current_state.progress = 75 ∧ r3.current_state.css ≠ "") ∧
    (r4.current_state.progress = 100 ∧ r4.current_state.js ≠ "" ∧
      r4.current_state.completed = false) ∧
    r5.completed = true ∧ r5.current_state.completed = false := by
  -- call 1: structure phase
  rw [advance_none_eq, advance_structure_branch ext w0 d {} rfl] at h1
  rcases hA : analyze_structure w0 ({} : GenState) d with ⟨resA, stA, wA⟩
  rw [hA] at h1
  simp only [Prod.mk.injEq] at h1
  obtain ⟨hr1, hw1⟩ := h1
  have hcur1 : r1.current_state = stA := by rw [← hr1]; rfl
  rw [hcur1] at e1 h2
  have hinv1 : CacheInv w1 := hw1 ▸ analyze_cacheInv hinv hA
  rcases analyze_spec hA with ⟨-, ws, hstA⟩ | ⟨-, es, hne, hstA⟩
  swap
  · rw [hstA] at e1
    simp only [] at e1
    exact absurd (by simpa using e1) hne
  -- facts about the state after call 1
  have hprogA : stA.progress = 25 := by rw [hstA]
  have hhtmlA : stA.html = "" := by rw [hstA]
  have hcssA : stA.css = "" := by rw [hstA]
  have hjsA : stA.js = "" := by rw [hstA]
  have hcompA : stA.completed = false := by rw [hstA]
  have hsA : stA.struct.isNone = false := by rw [hstA]; rfl
  refine ⟨⟨by rw [hcur1, hprogA], by rw [hcur1, hhtmlA]⟩, ?_⟩
  -- call 2: HTML phase
  rw [advance_html_branch ext w1 d stA hsA hhtmlA] at h2
  rcases hH : generate_html ext w1 stA d with ⟨resH, stH, wH⟩
  rw [hH] at h2
  simp only [Prod.mk.injEq] at h2
  obtain ⟨hr2, hw2⟩ := h2
  have hcur2 : r2.current_state = stH := by rw [← hr2]; rfl
  rw [hcur2] at e2 h3
  have hinv2 : CacheInv w2 := hw2 ▸ html_cacheInv hinv1 hH
  rcases html_spec hH with ⟨-, html2, comps, ws2, hstH, -, hcond⟩ | ⟨-, es, hne, hstH⟩
  swap
  · rw [hstH] at e2
    simp only [] at e2
    exact absurd (by simpa using e2 : stA.errors = [] ∧ es = []).2 hne
  have hhtml2 : html2 ≠ "" := hcond hinv1
  have hprogH : stH.progress = 50 := by rw [hstH]
  have hhtmlH : stH.html ≠ "" := by rw [hstH]; exact hhtml2
  have hcssH : stH.css = "" := by rw [hstH]; exact hcssA
  have hjsH : stH.js = "" := by rw [hstH]; exact hjsA
  have hcompH : stH.completed = false := by rw [hstH]; exact hcompA
  have hsH : stH.struct.isNone = false := by rw [hstH]; exact hsA
  refine ⟨⟨by rw [hcur2, hprogH], by rw [hcur2]; exact hhtmlH⟩, ?_⟩
  -- call 3: CSS phase
  rw [advance_css_branch ext w2 d stH hsH hhtmlH hcssH] at h3
  rcases hC : generate_css ext w2 stH d with ⟨resC, stC, wC⟩
  rw [hC] at h3
  simp only [Prod.mk.injEq] at h3
  obtain ⟨hr3, hw3⟩ := h3
  have hcur3 : r3.current_state = stC := by rw [← hr3]; rfl
  rw [hcur3] at e3 h4
  have hinv3 : CacheInv w3 := hw3 ▸ css_cacheInv hinv2 hC
  rcases css_spec hC with ⟨-, -, content3, hstC, hlen3⟩ | ⟨-, es, hne, hstC⟩
  swap
  · rw [hstC] at e3
    simp only [] at e3
    exact absurd (by simpa using e3 : stH.errors = [] ∧ es = []).2 hne
  have hcssVal : clean_css ext.cssBeautify content3 ≠ "" := by
    apply clean_css_ne_empty hbc
    apply ne_empty_of_length_pos
    have := hlen3 hinv2
    unfold minContentLength at this
    omega
  have hprogC : stC.progress = 75 := by rw [hstC]
  have hhtmlC : stC.html ≠ "" := by rw [hstC]; exact hhtmlH
  have hcssC : stC.css ≠ "" := by rw [hstC]; exact hcssVal
  have hjsC : stC.js = "" := by rw [hstC]; exact hjsH
  have hcompC : stC.completed = false := by rw [hstC]; exact hcompH
  have hsC : stC.struct.isNone = false := by rw [hstC]; exact hsH
  refine ⟨⟨by rw [hcur3, hprogC], by rw [hcur3]; exact hcssC⟩, ?_⟩
  -- call 4: JS phase
  rw [advance_js_branch ext w3 d stC hsC hhtmlC hcssC hjsC] at h4
  rcases hJ : generate_js ext w3 stC d with ⟨resJ, stJ, wJ⟩
  rw [hJ] at h4
  simp only [Prod.mk.injEq] at h4
  obtain ⟨hr4, hw4⟩ := h4
  have hcur4 : r4.current_state = stJ := by rw [← hr4]; rfl
  rw [hcur4] at e4 h5
  rcases js_spec hJ with ⟨-, -, content4, hstJ, hlen4⟩ | ⟨-, es, hne, hstJ⟩
  swap
  · rw [hstJ] at e4
    simp only [] at e4
    exact absurd (by simpa using e4 : stC.errors = [] ∧ es = []).2 hne
  have hjsVal : clean_js ext.jsBeautify (jsContentPre ++ content4) ≠ "" := by
    apply clean_js_ne_empty hbj
    apply ne_empty_of_length_pos
    rw [String.length_append]
    have : 0 < jsContentPre.length := by decide
    omega
  have hprogJ : stJ.progress = 100 := by rw [hstJ]
  have hhtmlJ : stJ.html ≠ "" := by rw [hstJ]; exact hhtmlC
  have hcssJ : stJ.css ≠ "" := by rw [hstJ]; exact hcssC
  have hjsJ : stJ.js ≠ "" := by rw [hstJ]; exact hjsVal
  have hcompJ : stJ.completed = false := by rw [hstJ]; exact hcompC
  have hsJ : stJ.struct.isNone = false := by rw [hstJ]; exact hsC
  refine ⟨⟨by rw [hcur4, hprogJ], by rw [hcur4]; exact hjsJ,
    by rw [hcur4, hcompJ]⟩, ?_⟩
  -- call 5: terminal branch
  rw [advance_final_branch ext w4 d stJ hsJ hhtmlJ hcssJ hjsJ] at h5
  simp only [Prod.mk.injEq] at h5
  obtain ⟨hr5, -⟩ := h5
  constructor
  · rw [← hr5]
    rfl
  · rw [← hr5]
    show stJ.completed = false
    exact hcompJ

theorem stateful_flow_progression_witness :
    (adv1.1.current_state.progress = 25 ∧ adv1.1.current_state.html = "") ∧
    (adv2.1.current_state.progress = 50 ∧ adv2.1.current_state.html ≠ "") ∧
    (adv3.1.current_state.progress = 75 ∧ adv3.1.current_state.css ≠ "") ∧
    (adv4.1.current_state.progress = 100 ∧ adv4.1.current_state.js ≠ "" ∧
      adv4.1.current_state.completed = false) ∧
    adv5.1.completed = true ∧ adv5.1.current_state.completed = false :=
  stateful_flow_progression extOk wOk "a bakery landing page"
    (fun _ => rfl) (fun _ => rfl) wOk_cacheInv
    adv1.1 adv2.1 adv3.1 adv4.1 adv5.1 adv1.2 adv2.2 adv3.2 adv4.2 adv5.2
    (Prod.mk.eta (p := adv1)).symm (by decide)
    (Prod.mk.eta (p := adv2)).symm (by decide)
    (Prod.mk.eta (p := adv3)).symm (by decide)
    (Prod.mk.eta (p := adv4)).symm (by decide)
    (Prod.mk.eta (p := adv5)).symm

end Webify
